import Mathlib

/-!
Shallow embedding of `hloc/localize_inloc.py` (InLoc multi-view depth-to-pose
localization pipeline) and proofs about it.

Modelling conventions:
* Python/NumPy floats are modelled as exact rationals (`ℚ`); the IEEE NaN
  sentinel is made explicit by the two-constructor type `RV` (NaN or value).
  NaN propagation through arithmetic (`0 * NaN = NaN`, `x + NaN = NaN`) is
  modelled faithfully.
* Fallible operations return `Except Err _`; a raised Python exception is an
  `Except.error`.
* External collaborators (the h5py feature/match stores, `cv2.imread` image
  dimensions, `scipy.io.loadmat` scans, the on-the-fly matcher, and the
  `pycolmap` robust pose solver) are environment fields, modelled as total or
  `Except`-valued lookup functions, following the contracts in the spec.
* On-disk transform files are a map from the (floor, building, scan) key that
  `get_scan_pose` derives from the reference image path to an optional list of
  text lines; a line is a list of tokens, each either a numeric literal or
  unparsable junk.
-/

deriving instance DecidableEq for Except

namespace HlocInloc

/-- A NumPy float value: either the NaN sentinel or an exact rational. -/
inductive RV where
  | nan : RV
  | val (q : ℚ) : RV
deriving DecidableEq

/-- Test for the NaN sentinel (models `np.isnan` / `torch.isnan`). -/
def RV.isNaN : RV → Bool
  | .nan => true
  | .val _ => false

/-- Scalar multiplication by an exact coefficient; NaN absorbs (IEEE:
`0 * NaN = NaN`). -/
def RV.scale (c : ℚ) : RV → RV
  | .nan => .nan
  | .val q => .val (c * q)

/-- Addition with NaN propagation. -/
def RV.add : RV → RV → RV
  | .nan, _ => .nan
  | _, .nan => .nan
  | .val a, .val b => .val (a + b)

/-- One pixel of a depth scan / one 3D point: the 3 coordinate channels,
each possibly NaN. -/
structure V3 where
  x : RV
  y : RV
  z : RV
deriving DecidableEq

/-- Channel accessor (channel 0 = x, 1 = y, 2 = z), matching the channel
dimension of the `H×W×3` scan array. -/
def V3.ch (v : V3) (c : Fin 3) : RV :=
  if c.val = 0 then v.x else if c.val = 1 then v.y else v.z

/-- A 2D keypoint `(x, y)` in pixel coordinates (`interpolate_scan`'s `kp`
rows; x is the horizontal/width axis). -/
abbrev Pt2 := ℚ × ℚ

/-- A dense depth scan: the `XYZcut` array of shape `(h, w, 3)`.
`data i j` is the 3-channel value at row `i`, column `j`; `data` is total,
the pipeline only reads indices inside `[0,h) × [0,w)`. -/
structure Scan where
  h : ℕ
  w : ℕ
  data : ℕ → ℕ → V3

/-- Error taxonomy for raised Python exceptions in the modelled code:
`notFound` = FileNotFoundError, `indexErr` = IndexError, `assertErr` =
AssertionError, `valueErr` = ValueError (e.g. `np.concatenate` on an empty
list), `depErr` = any exception raised inside a collaborator (matcher,
`loadmat`, pose solver). -/
inductive Err where
  | notFound
  | indexErr
  | assertErr
  | valueErr
  | depErr
deriving DecidableEq

/-- Source line 20, per coordinate: `kp = kp / np.array([[w-1, h-1]]) * 2 - 1`.
Normalizes a pixel coordinate to the grid-sample coordinate system. -/
def normCoord (coord : ℚ) (dim : ℕ) : ℚ :=
  coord / ((dim : ℚ) - 1) * 2 - 1

/-- Normalize a keypoint: x against the width, y against the height. -/
def normKp (w h : ℕ) (kp : Pt2) : Pt2 :=
  (normCoord kp.1 w, normCoord kp.2 h)

/-- Strict open-interval test `-1 < q < 1` for one normalized coordinate. -/
def inOpen (q : ℚ) : Bool :=
  decide (-1 < q) && decide (q < 1)

/-- Source line 21 restricted to one keypoint: both normalized coordinates
strictly inside `(-1, 1)`. The assert on line 21 is this test over all
keypoints. -/
def kpInBounds (nkp : Pt2) : Bool :=
  inOpen nkp.1 && inOpen nkp.2

/-- The inverse of the normalization that `grid_sample(..., align_corners=True)`
applies to recover the pixel-space sampling position from a normalized
coordinate: `ix = (n + 1) / 2 * (dim - 1)`. -/
def unnorm (n : ℚ) (dim : ℕ) : ℚ :=
  (n + 1) / 2 * ((dim : ℚ) - 1)

/-- Bilinear sample of one channel at pixel-space position `(ix, iy)`
(`grid_sample(..., mode='bilinear', align_corners=True)` with all four corner
pixels in range, which the line-21 assert guarantees). The four corners are
always read and combined with IEEE arithmetic, so any NaN corner — even one
with weight 0 — makes the result NaN. -/
def bilinChannel (getC : ℕ → ℕ → RV) (ix iy : ℚ) : RV :=
  let x0 : ℤ := ⌊ix⌋
  let y0 : ℤ := ⌊iy⌋
  let fx : ℚ := ix - x0
  let fy : ℚ := iy - y0
  match getC y0.toNat x0.toNat, getC y0.toNat (x0.toNat + 1),
        getC (y0.toNat + 1) x0.toNat, getC (y0.toNat + 1) (x0.toNat + 1) with
  | RV.val a, RV.val b, RV.val c, RV.val d =>
      RV.val ((1 - fy) * ((1 - fx) * a + fx * b) + fy * ((1 - fx) * c + fx * d))
  | _, _, _, _ => RV.nan

/-- Bilinear sample of all 3 channels at a normalized keypoint
(source lines 28-29, `interp_lin`). -/
def bilinAt (s : Scan) (nkp : Pt2) : V3 :=
  let ix := unnorm nkp.1 s.w
  let iy := unnorm nkp.2 s.h
  ⟨bilinChannel (fun i j => (s.data i j).x) ix iy,
   bilinChannel (fun i j => (s.data i j).y) ix iy,
   bilinChannel (fun i j => (s.data i j).z) ix iy⟩

/-- Nearest-neighbor sample at a normalized keypoint (source lines 30-31,
`interp_nn`): round the pixel-space position to the nearest pixel and read it.
Exact half-pixel ties are not exercised by any theorem below. -/
def nearAt (s : Scan) (nkp : Pt2) : V3 :=
  let ix := unnorm nkp.1 s.w
  let iy := unnorm nkp.2 s.h
  s.data (round iy).toNat (round ix).toNat

/-- Source line 32 for one channel:
`interp = torch.where(torch.isnan(interp_lin), interp_nn, interp_lin)`. -/
def rvSel (lin nn : RV) : RV :=
  if lin.isNaN then nn else lin

/-- Combined sample at one normalized keypoint: the channel-wise
where-selection of line 32 and the validity flag of line 33
(`valid = ~torch.any(torch.isnan(interp), 0)`). -/
def sampleAt (s : Scan) (nkp : Pt2) : V3 × Bool :=
  let lin := bilinAt s nkp
  let nn := nearAt s nkp
  let interp : V3 := ⟨rvSel lin.x nn.x, rvSel lin.y nn.y, rvSel lin.z nn.z⟩
  (interp, !(interp.x.isNaN || interp.y.isNaN || interp.z.isNaN))

/-- Source lines 18-37, `interpolate_scan(scan, kp)`: normalize all keypoints,
assert they are strictly inside `(-1, 1)` (AssertionError otherwise), then
produce the per-keypoint interpolated 3D point and validity flag. -/
def interpolate_scan (s : Scan) (kps : List Pt2) : Except Err (List (V3 × Bool)) :=
  let nkps := kps.map (normKp s.w s.h)
  if nkps.all kpInBounds then .ok (nkps.map (sampleAt s)) else .error .assertErr

/-- One whitespace-separated token of a transform-file line: a numeric literal
or unparsable junk. -/
inductive Tok where
  | num (q : ℚ)
  | junk
deriving DecidableEq

/-- A transform file's content: its text lines, each a list of tokens. -/
abbrev Lines := List (List Tok)

/-- Models `np.fromstring(line, sep=' ')`: a greedy numeric prefix of the
line is parsed; at the first unparsable token parsing stops silently (NumPy
emits only a DeprecationWarning, never an exception). -/
def fromstringModel : List Tok → List ℚ
  | [] => []
  | .num q :: ts => q :: fromstringModel ts
  | .junk :: _ => []

/-- Character-level model of Python's `str.split('/')`. -/
def splitCharsAux : List Char → List Char → List (List Char)
  | [], cur => [cur.reverse]
  | c :: cs, cur =>
      if c = '/' then cur.reverse :: splitCharsAux cs [] else splitCharsAux cs (c :: cur)

/-- Python `rpath.split('/')` (source line 41). -/
def splitSlash (s : String) : List String :=
  (splitCharsAux s.data []).map (fun cs => String.mk cs)

/-- Key addressing one transform file: (floor name, building code, scan id),
the components interpolated into the path
`database/alignments/<floor>/transformations/<building>_trans_<scan>.txt`
on source lines 47-49. -/
abbrev TransKey := String × String × String

/-- A file system of transform files, keyed by `TransKey` (`dataset_dir` and
the fixed path skeleton are absorbed into the map); `none` means the file is
absent, so `open` raises FileNotFoundError. -/
abbrev FileSys := TransKey → Option Lines

/-- Source lines 41-45: derive `(floor_name, building_name, scan_id)` from the
reference image path. Python's `split_image_rpath[-3]` raises IndexError when
the path has fewer than 3 components. -/
def transKeyOf (rpath : String) : Option TransKey :=
  let parts := splitSlash rpath
  if 3 ≤ parts.length then
    some (parts.getD (parts.length - 3) "",
          String.mk ((parts.getD (parts.length - 1) "").data.take 3),
          parts.getD (parts.length - 2) "")
  else none

/-- Source lines 40-60, `get_scan_pose(dataset_dir, rpath)`: resolve the
transform file and parse the fixed window of 0-indexed lines 7-10 as four
rows of whitespace-separated floats. `raw_lines[10]` (and `[7]`, `[8]`, `[9]`)
raise IndexError when the file has fewer than 11 lines. -/
def get_scan_pose (files : FileSys) (rpath : String) : Except Err (List (List ℚ)) :=
  match transKeyOf rpath with
  | none => .error .indexErr
  | some k =>
    match files k with
    | none => .error .notFound
    | some lines =>
      if 10 < lines.length then
        .ok [fromstringModel (lines.getD 7 []),
             fromstringModel (lines.getD 8 []),
             fromstringModel (lines.getD 9 []),
             fromstringModel (lines.getD 10 [])]
      else .error .indexErr

/-- One output coordinate of the transform application
`Tr[:3, :3] @ mkp3d.T + Tr[:3, -1:]` (source lines 92 and 157) for one row
`i < 3` of `Tr`: the dot product of the row's first three entries with the
point plus the row's last entry (NumPy column `-1`), with IEEE NaN
propagation. This matches NumPy exactly for the rectangular, at-least-3-wide
transforms accepted by `transApplyOk`, which guards every call site; on
other transforms NumPy raises instead (see `transApplyOk`). -/
def dotRow (row : List ℚ) (p : V3) : RV :=
  (RV.scale (row.getD 0 0) p.x).add
    ((RV.scale (row.getD 1 0) p.y).add
      ((RV.scale (row.getD 2 0) p.z).add (RV.val ((row.getLast?).getD 0))))

/-- The full transform application `global = R · local + t` of source lines
92 and 157: only rows 0-2 of the parsed 4-row matrix are read. Exact for
transforms accepted by `transApplyOk`; the call sites raise otherwise. -/
def applyTrans (T : List (List ℚ)) (p : V3) : V3 :=
  ⟨dotRow (T.getD 0 []) p, dotRow (T.getD 1 []) p, dotRow (T.getD 2 []) p⟩

/-- Whether the NumPy expression `Tr[:3, :3] @ mkp3d.T + Tr[:3, -1:]`
(source lines 92 and 157) evaluates without raising on the parsed rows:
`np.array` of rows of unequal lengths builds a dtype=object array (the
NumPy versions contemporary with this code only warn there), and the
caller's `Tr[:3, :3]` slicing then raises IndexError; a rectangular array
narrower than 3 columns makes the matrix product raise a shape ValueError.
So the application succeeds exactly when all rows have equal length and
that width is at least 3. -/
def transApplyOk (T : List (List ℚ)) : Bool :=
  T.all (fun row => decide (row.length = (T.getD 0 []).length)) &&
    decide (3 ≤ (T.getD 0 []).length)

/-- The parsed form of a transform file holding an identity rotation, a zero
translation and the homogeneous bottom row. -/
def idTrans4 : List (List ℚ) :=
  [[1, 0, 0, 0], [0, 1, 0, 0], [0, 0, 1, 0], [0, 0, 0, 1]]

/-- The camera configuration dict built on source lines 104-109 / 124-129. -/
structure Cfg where
  model : String
  width : ℕ
  height : ℕ
  params : List ℚ
deriving DecidableEq

/-- Source lines 66-68 / 123-128: SIMPLE_PINHOLE with the fixed focal length
`4032 * 28 / 36` and the principal point at the image center. -/
def mkCfg (w h : ℕ) : Cfg :=
  ⟨"SIMPLE_PINHOLE", w, h, [4032 * 28 / 36, (w : ℚ) / 2, (h : ℚ) / 2]⟩

/-- The result dict of `pycolmap.absolute_pose_estimation`: quaternion,
translation and the per-correspondence inlier mask. -/
structure PnpRet where
  qvec : List ℚ
  tvec : List ℚ
  inliers : List Bool
deriving DecidableEq

/-- Modelled from the spec: `names_to_pair` (imported from
`hloc.utils.parsers`, whose source is not included) produces the match-store
key, an "unordered-pair encoding of (query, reference) identifiers". We key
the store by the ordered pair, which is the only way the pipeline queries
it. -/
def names_to_pair (q r : String) : String × String := (q, r)

/-- Environment of `pose_from_cluster` (precomputed-match mode): the external
collaborators of source lines 65, 74, 78, 80, 89 and 110. `dims name` is
`cv2.imread(...).shape[:2]`, i.e. `(height, width)`; `features` is
`feature_file[name]['keypoints']`; `matches0` is
`match_file[pair]['matches0']`; `scans name` is
`loadmat(name + '.mat')['XYZcut']` (an `Except` because a missing file
raises); `solver` is `pycolmap.absolute_pose_estimation`, an `Except` because
the spec's solver contract is "Fails (propagated, not retried)". -/
structure EnvP where
  dims : String → ℕ × ℕ
  features : String → List Pt2
  matches0 : String × String → List ℤ
  scans : String → Except Err Scan
  solver : List Pt2 → List V3 → Cfg → ℚ → Except Err PnpRet

/-- Source line 81: the valid-match mask `v = (m > -1)` paired positionally
with the query keypoints. NumPy boolean-mask indexing (`kpq[v]`) requires the
mask length to equal the array length, so the model pairs `kpq` and `m`
positionally. -/
def matchedPairs (kpq : List Pt2) (m : List ℤ) : List (Pt2 × ℤ) :=
  (kpq.zip m).filter (fun km => decide (-1 < km.2))

/-- Source line 86, `mkpq = kpq[v]`. -/
def maskedQ (kpq : List Pt2) (m : List ℤ) : List Pt2 :=
  (matchedPairs kpq m).map (fun km => km.1)

/-- Source line 86, `mkpr = kpr[m[v]]`: for each valid match, the reference
keypoint indexed by the match entry (out-of-range entries would raise in
NumPy; the model totalizes them with a default). -/
def maskedR (kpq kpr : List Pt2) (m : List ℤ) : List Pt2 :=
  (matchedPairs kpq m).map (fun km => kpr.getD km.2.toNat (0, 0))

/-- Source line 83's count `np.count_nonzero(v)`: the number of valid match
entries. -/
def matchCount (m : List ℤ) : ℕ :=
  (m.filter (fun mi => decide (-1 < mi))).length

/-- Source line 83's condition `skip and (np.count_nonzero(v) < skip)`, with
Python truthiness: `skip=None` and `skip=0` are falsy, so no view is ever
skipped then. -/
def pythonSkip (skip : Option ℕ) (cnt : ℕ) : Bool :=
  match skip with
  | none => false
  | some s => decide (s ≠ 0) && decide (cnt < s)

/-- The per-view data assembled inside the loop body of `pose_from_cluster`
(lines 78-92) before the validity filtering of lines 94-97. -/
structure PieceP where
  mkpq : List Pt2
  mkpr : List Pt2
  mkp3d : List V3
  valid : List Bool

/-- One iteration of the `pose_from_cluster` loop body (source lines 78-92)
for reference image `r`, up to but excluding the appends: `.ok none` when the
view is skipped by the `skip` threshold (line 83-84), `.error` when any step
raises (nothing catches it in precomputed mode) — including the line-92
transform application on an ill-formed parsed transform (see
`transApplyOk`) — and `.ok (some piece)` otherwise. -/
def viewResP (env : EnvP) (files : FileSys) (q : String) (skip : Option ℕ)
    (r : String) : Except Err (Option PieceP) :=
  let kpq := env.features q
  let kpr := env.features r
  let m := env.matches0 (names_to_pair q r)
  if pythonSkip skip (matchCount m) then .ok none
  else
    let mkpq := maskedQ kpq m
    let mkpr := maskedR kpq kpr m
    match env.scans r with
    | .error e => .error e
    | .ok scan =>
      match interpolate_scan scan mkpr with
      | .error e => .error e
      | .ok samples =>
        match get_scan_pose files r with
        | .error e => .error e
        | .ok T =>
          if transApplyOk T then
            .ok (some ⟨mkpq, mkpr,
                       samples.map (fun sv => applyTrans T sv.1),
                       samples.map (fun sv => sv.2)⟩)
          else .error .indexErr

/-- Filter a list by a parallel boolean mask (NumPy `xs[valid]`). -/
def filterMask (xs : List α) (mask : List Bool) : List α :=
  ((xs.zip mask).filter (fun ab => ab.2)).map (fun ab => ab.1)

/-- Count of `True` entries (`np.count_nonzero(valid)`). -/
def countMask (mask : List Bool) : ℕ :=
  (mask.filter (fun b => b)).length

/-- Accumulator of `pose_from_cluster` (source lines 70-75): the four Python
lists of per-view arrays and the running raw-match counter. Each appended
element of the outer lists is one per-view array. -/
structure AccP where
  qs : List (List Pt2)
  rsl : List (List Pt2)
  ps : List (List V3)
  idx : List (List ℕ)
  num : ℕ

/-- The empty accumulator (source lines 70-75). -/
def accP0 : AccP := ⟨[], [], [], [], 0⟩

/-- Source lines 87 and 94-97: `num_matches += len(mkpq)` and the four
appends of the validity-filtered arrays, with the reference-index annotation
`np.full(np.count_nonzero(valid), i)`. -/
def pushP (acc : AccP) (i : ℕ) (p : PieceP) : AccP :=
  ⟨acc.qs ++ [filterMask p.mkpq p.valid],
   acc.rsl ++ [filterMask p.mkpr p.valid],
   acc.ps ++ [filterMask p.mkp3d p.valid],
   acc.idx ++ [List.replicate (countMask p.valid) i],
   acc.num + p.mkpq.length⟩

/-- The `for i, r in enumerate(retrieved)` loop of `pose_from_cluster`
(source lines 77-97); any exception aborts the whole call. -/
def loopP (env : EnvP) (files : FileSys) (q : String) (skip : Option ℕ) :
    ℕ → List String → AccP → Except Err AccP
  | _, [], acc => .ok acc
  | i, r :: rs, acc =>
    match viewResP env files q skip r with
    | .error e => .error e
    | .ok none => loopP env files q skip (i + 1) rs acc
    | .ok (some p) => loopP env files q skip (i + 1) rs (pushP acc i p)

/-- The tuple returned by `pose_from_cluster` (source line 113), with the
solver result and the camera configuration of `ret['cfg'] = cfg`. -/
structure PreResult where
  ret : PnpRet
  cfg : Cfg
  mkpq : List Pt2
  mkpr : List Pt2
  mkp3d : List V3
  indices : List ℕ
  num : ℕ
deriving DecidableEq

/-- Source lines 63-113, `pose_from_cluster`: run the aggregation loop,
concatenate (`np.concatenate` raises ValueError on an empty list of arrays,
i.e. when every view was skipped), and invoke the solver with the fixed
threshold 48.0. -/
def pose_from_cluster (env : EnvP) (files : FileSys) (q : String)
    (retrieved : List String) (skip : Option ℕ) : Except Err PreResult :=
  let hw := env.dims q
  let cfg := mkCfg hw.2 hw.1
  match loopP env files q skip 0 retrieved accP0 with
  | .error e => .error e
  | .ok acc =>
    if acc.qs.isEmpty then .error .valueErr
    else
      match env.solver acc.qs.flatten acc.ps.flatten cfg 48 with
      | .error e => .error e
      | .ok ret =>
        .ok ⟨ret, cfg, acc.qs.flatten, acc.rsl.flatten, acc.ps.flatten,
             acc.idx.flatten, acc.num⟩

/-- One row of the on-the-fly matcher's output `matches`: columns
`(x_q, y_q, x_r, y_r)` (source line 153 splits it at column 2). -/
structure MRow where
  xq : ℚ
  yq : ℚ
  xr : ℚ
  yr : ℚ
deriving DecidableEq

/-- Environment of `pose_from_cluster_onfly_matching`: `matcher q r` models
`matcher(imq_path, imr_path)[0]` (the dataset-dir prefix of both paths is
absorbed into the map); the other collaborators are as in `EnvP`. -/
structure EnvO where
  dims : String → ℕ × ℕ
  matcher : String → String → Except Err (List MRow)
  scans : String → Except Err Scan
  solver : List Pt2 → List V3 → Cfg → ℚ → Except Err PnpRet

/-- The per-view data of the on-the-fly loop body (source lines 147-157). -/
structure PieceO where
  mkpq : List Pt2
  mkpr : List Pt2
  mkp3d : List V3
  valid : List Bool
deriving DecidableEq

/-- Outcome of one reference view in on-the-fly mode:
`failedRaise timed` = an exception was raised inside the `try` block of
source lines 142-157 (`timed` records whether the matcher call had already
returned, i.e. whether line 146 appended a latency entry);
`skipped` = `len(matches) < skip_matches` (lines 149-151);
`ok` = the view produced data. -/
inductive ViewOutO where
  | failedRaise (timed : Bool)
  | skipped
  | ok (p : PieceO)
deriving DecidableEq

/-- The body of the `try` block (source lines 142-157) for one reference
view; the line-157 transform application on an ill-formed parsed transform
raises inside the `try` like every other step (see `transApplyOk`). -/
def viewResO (env : EnvO) (files : FileSys) (q : String) (skipM : ℕ)
    (r : String) : ViewOutO :=
  match env.matcher q r with
  | .error _ => .failedRaise false
  | .ok rows =>
    if rows.length < skipM then .skipped
    else
      let mkpq := rows.map (fun row => (row.xq, row.yq))
      let mkpr := rows.map (fun row => (row.xr, row.yr))
      match env.scans r with
      | .error _ => .failedRaise true
      | .ok scan =>
        match interpolate_scan scan mkpr with
        | .error _ => .failedRaise true
        | .ok samples =>
          match get_scan_pose files r with
          | .error _ => .failedRaise true
          | .ok T =>
            if transApplyOk T then
              .ok ⟨mkpq, mkpr,
                   samples.map (fun sv => applyTrans T sv.1),
                   samples.map (fun sv => sv.2)⟩
            else .failedRaise true

/-- Accumulator of the on-the-fly loop (source lines 131-137): the four
per-view array lists, the raw-match counter, the number of recorded matcher
latencies (`len(times)`; wall-clock values themselves are not modelled), and
the failure list. -/
structure AccO where
  qs : List (List Pt2)
  rsl : List (List Pt2)
  ps : List (List V3)
  idx : List (List ℕ)
  num : ℕ
  times : ℕ
  failed : List (String × String)
deriving DecidableEq

/-- The empty on-the-fly accumulator. -/
def accO0 : AccO := ⟨[], [], [], [], 0, 0, []⟩

/-- One iteration of the on-the-fly loop (source lines 138-166): an exception
inside the `try` is caught at the per-pair boundary (lines 158-160) and
recorded in `failed`; a below-threshold view is likewise recorded (lines
149-151); an ok view appends its filtered arrays (lines 162-166). -/
def stepO (q : String) (i : ℕ) (r : String) (acc : AccO) : ViewOutO → AccO
  | .failedRaise timed =>
      { acc with failed := acc.failed ++ [(q, r)],
                 times := acc.times + (if timed then 1 else 0) }
  | .skipped =>
      { acc with failed := acc.failed ++ [(q, r)], times := acc.times + 1 }
  | .ok p =>
      { acc with
        times := acc.times + 1,
        num := acc.num + p.mkpq.length,
        qs := acc.qs ++ [filterMask p.mkpq p.valid],
        rsl := acc.rsl ++ [filterMask p.mkpr p.valid],
        ps := acc.ps ++ [filterMask p.mkp3d p.valid],
        idx := acc.idx ++ [List.replicate (countMask p.valid) i] }

/-- The `for i, r in enumerate(retrieved)` loop of
`pose_from_cluster_onfly_matching` (source lines 138-166); total, because
every per-view exception is caught at the per-pair boundary. -/
def loopO (env : EnvO) (files : FileSys) (q : String) (skipM : ℕ) :
    ℕ → List String → AccO → AccO
  | _, [], acc => acc
  | i, r :: rs, acc =>
      loopO env files q skipM (i + 1) rs (stepO q i r acc (viewResO env files q skipM r))

/-- The `res_dict` built on source lines 177-185. -/
structure ResDict where
  db : List String
  ret : PnpRet
  cfg : Cfg
  kq : List Pt2
  kr : List Pt2
  p3 : List V3
  idx : List ℕ
  num : ℕ
deriving DecidableEq

/-- The mutable `poses` dict threaded through the on-the-fly pipeline,
as an association list (each query is assigned at most once). -/
abbrev Poses := List (String × (List ℚ × List ℚ))

/-- Source lines 115-186, `pose_from_cluster_onfly_matching`: run the
per-view loop; if the accumulated raw-match count is zero return `None`
(lines 167-168) without invoking the solver; otherwise concatenate, invoke
the solver (line 174, not inside any try: a solver failure propagates out of
the function), store the pose into `poses` and build `res_dict`. Returns
(res_dict or None, failed pairs, number of latency entries, updated poses). -/
def pose_from_cluster_onfly_matching (env : EnvO) (files : FileSys)
    (q : String) (retrieved : List String) (poses : Poses) (rthres : ℚ)
    (skipM : ℕ) :
    Except Err (Option ResDict × List (String × String) × ℕ × Poses) :=
  let hw := env.dims q
  let cfg := mkCfg hw.2 hw.1
  let acc := loopO env files q skipM 0 retrieved accO0
  if acc.num = 0 then .ok (none, acc.failed, acc.times, poses)
  else
    match env.solver acc.qs.flatten acc.ps.flatten cfg rthres with
    | .error e => .error e
    | .ok ret =>
      .ok (some ⟨retrieved, ret, cfg, acc.qs.flatten, acc.rsl.flatten,
                 acc.ps.flatten, acc.idx.flatten, acc.num⟩,
           acc.failed, acc.times,
           poses ++ [(q, (ret.qvec, ret.tvec))])

/-- Python `q.split('/')[-1]` (source lines 238 and 288). -/
def basename (q : String) : String :=
  ((splitSlash q).getLast?).getD ""

/-- The pose-table writer (source lines 231-239 and 283-289): one line per
query present in `poses`, keyed by the image basename; queries absent from
`poses` are skipped. -/
def resLines (poses : Poses) (queries : List String) :
    List (String × (List ℚ × List ℚ)) :=
  queries.filterMap (fun q => (List.lookup q poses).map (fun p => (basename q, p)))

/-- The per-query loop of `localize_with_matcher` (source lines 217-228):
threads `poses`, accumulates `logs['loc']` and `logs['failed']`. An
uncaught exception from `pose_from_cluster_onfly_matching` (i.e. a solver
failure) aborts the whole run. -/
def locLoop (env : EnvO) (files : FileSys) (rthres : ℚ) (skipM : ℕ) :
    List (String × List String) → Poses → List (String × Option ResDict) →
    List (String × String) →
    Except Err (Poses × List (String × Option ResDict) × List (String × String))
  | [], poses, locs, fails => .ok (poses, locs, fails)
  | (q, retrieved) :: rest, poses, locs, fails =>
    match pose_from_cluster_onfly_matching env files q retrieved poses rthres skipM with
    | .error e => .error e
    | .ok (res, failedq, _t, poses2) =>
        locLoop env files rthres skipM rest poses2 (locs ++ [(q, res)]) (fails ++ failedq)

/-- The outputs of one on-the-fly run: the written pose table, the per-query
log records, and the global failure list. -/
structure RunOutO where
  table : List (String × (List ℚ × List ℚ))
  locs : List (String × Option ResDict)
  failedPairs : List (String × String)
deriving DecidableEq

/-- Source lines 188-243, `localize_with_matcher`: the retrieval mapping is
the input association list (parsing it is out of scope); process every query
in order, then write the pose table and logs. -/
def localize_with_matcher (env : EnvO) (files : FileSys)
    (dict : List (String × List String)) (rthres : ℚ) (skipM : ℕ) :
    Except Err RunOutO :=
  match locLoop env files rthres skipM dict [] [] [] with
  | .error e => .error e
  | .ok (poses, locs, fails) =>
      .ok ⟨resLines poses (dict.map (fun e => e.1)), locs, fails⟩

/-- The per-query loop of `main` (source lines 266-280): nothing catches an
exception from `pose_from_cluster`, so any per-query failure aborts the
run. -/
def mainLoop (env : EnvP) (files : FileSys) (skip : Option ℕ) :
    List (String × List String) → Poses → List (String × PreResult) →
    Except Err (Poses × List (String × PreResult))
  | [], poses, locs => .ok (poses, locs)
  | (q, db) :: rest, poses, locs =>
    match pose_from_cluster env files q db skip with
    | .error e => .error e
    | .ok res =>
        mainLoop env files skip rest (poses ++ [(q, (res.ret.qvec, res.ret.tvec))])
          (locs ++ [(q, res)])

/-- The outputs of one precomputed-mode run. -/
structure RunOutP where
  table : List (String × (List ℚ × List ℚ))
  locs : List (String × PreResult)
deriving DecidableEq

/-- Source lines 245-295, `main`: the precomputed-mode orchestrator. -/
def main (env : EnvP) (files : FileSys) (dict : List (String × List String))
    (skip : Option ℕ) : Except Err RunOutP :=
  match mainLoop env files skip dict [] [] with
  | .error e => .error e
  | .ok (poses, locs) => .ok ⟨resLines poses (dict.map (fun e => e.1)), locs⟩

/-!  Derived per-view projections, used to state the aggregation invariants. -/

/-- The validity-filtered query keypoints contributed by reference view `r`
in precomputed mode (empty when the view is skipped or raises). -/
def viewSelQ (env : EnvP) (files : FileSys) (q : String) (skip : Option ℕ)
    (r : String) : List Pt2 :=
  match viewResP env files q skip r with
  | .ok (some p) => filterMask p.mkpq p.valid
  | _ => []

/-- The validity-filtered reference keypoints contributed by view `r`. -/
def viewSelR (env : EnvP) (files : FileSys) (q : String) (skip : Option ℕ)
    (r : String) : List Pt2 :=
  match viewResP env files q skip r with
  | .ok (some p) => filterMask p.mkpr p.valid
  | _ => []

/-- The validity-filtered global 3D points contributed by view `r`. -/
def viewSelP3 (env : EnvP) (files : FileSys) (q : String) (skip : Option ℕ)
    (r : String) : List V3 :=
  match viewResP env files q skip r with
  | .ok (some p) => filterMask p.mkp3d p.valid
  | _ => []

/-- The number of valid correspondences contributed by view `r`
(`np.count_nonzero(valid)`). -/
def viewCnt (env : EnvP) (files : FileSys) (q : String) (skip : Option ℕ)
    (r : String) : ℕ :=
  match viewResP env files q skip r with
  | .ok (some p) => countMask p.valid
  | _ => 0

/-- The number of valid correspondences contributed by view `r` in
on-the-fly mode (0 for skipped or failed views). -/
def viewCntO (env : EnvO) (files : FileSys) (q : String) (skipM : ℕ)
    (r : String) : ℕ :=
  match viewResO env files q skipM r with
  | .ok p => countMask p.valid
  | _ => 0

/-- The failure-list contribution of view `r` in on-the-fly mode: the pair
`(q, r)` for a skipped or raised view, nothing for an ok view. -/
def viewFailO (env : EnvO) (files : FileSys) (q : String) (skipM : ℕ)
    (r : String) : List (String × String) :=
  match viewResO env files q skipM r with
  | .ok _ => []
  | _ => [(q, r)]

/-- The validity-filtered query keypoints contributed by view `r` in
on-the-fly mode (empty for skipped or raised views). -/
def viewSelQO (env : EnvO) (files : FileSys) (q : String) (skipM : ℕ)
    (r : String) : List Pt2 :=
  match viewResO env files q skipM r with
  | .ok p => filterMask p.mkpq p.valid
  | _ => []

/-- The validity-filtered reference keypoints contributed by view `r` in
on-the-fly mode. -/
def viewSelRO (env : EnvO) (files : FileSys) (q : String) (skipM : ℕ)
    (r : String) : List Pt2 :=
  match viewResO env files q skipM r with
  | .ok p => filterMask p.mkpr p.valid
  | _ => []

/-- The validity-filtered global 3D points contributed by view `r` in
on-the-fly mode. -/
def viewSelPO (env : EnvO) (files : FileSys) (q : String) (skipM : ℕ)
    (r : String) : List V3 :=
  match viewResO env files q skipM r with
  | .ok p => filterMask p.mkp3d p.valid
  | _ => []

/-- Generic indexed concatenation over an enumerated list of reference
views: `perView f i [r0, r1, ...] = f i r0 ++ f (i+1) r1 ++ ...`. -/
def perView (f : ℕ → String → List α) : ℕ → List String → List α
  | _, [] => []
  | i, r :: rs => f i r ++ perView f (i + 1) rs

/-- Per-view contribution to the outer `all_mkpq` list in precomputed mode:
one appended array for a surviving view, nothing otherwise. -/
def contribQP (env : EnvP) (files : FileSys) (q : String) (skip : Option ℕ)
    (_i : ℕ) (r : String) : List (List Pt2) :=
  match viewResP env files q skip r with
  | .ok (some p) => [filterMask p.mkpq p.valid]
  | _ => []

/-- Per-view contribution to the outer `all_mkpr` list in precomputed mode. -/
def contribRP (env : EnvP) (files : FileSys) (q : String) (skip : Option ℕ)
    (_i : ℕ) (r : String) : List (List Pt2) :=
  match viewResP env files q skip r with
  | .ok (some p) => [filterMask p.mkpr p.valid]
  | _ => []

/-- Per-view contribution to the outer `all_mkp3d` list in precomputed
mode. -/
def contribPP (env : EnvP) (files : FileSys) (q : String) (skip : Option ℕ)
    (_i : ℕ) (r : String) : List (List V3) :=
  match viewResP env files q skip r with
  | .ok (some p) => [filterMask p.mkp3d p.valid]
  | _ => []

/-- Per-view contribution to the outer `all_indices` list in precomputed
mode. -/
def contribIP (env : EnvP) (files : FileSys) (q : String) (skip : Option ℕ)
    (i : ℕ) (r : String) : List (List ℕ) :=
  match viewResP env files q skip r with
  | .ok (some p) => [List.replicate (countMask p.valid) i]
  | _ => []

/-- Per-view contribution to the outer `all_mkpq` list in on-the-fly mode. -/
def contribQO (env : EnvO) (files : FileSys) (q : String) (skipM : ℕ)
    (_i : ℕ) (r : String) : List (List Pt2) :=
  match viewResO env files q skipM r with
  | .ok p => [filterMask p.mkpq p.valid]
  | _ => []

/-- Per-view contribution to the outer `all_mkpr` list in on-the-fly mode. -/
def contribRO (env : EnvO) (files : FileSys) (q : String) (skipM : ℕ)
    (_i : ℕ) (r : String) : List (List Pt2) :=
  match viewResO env files q skipM r with
  | .ok p => [filterMask p.mkpr p.valid]
  | _ => []

/-- Per-view contribution to the outer `all_mkp3d` list in on-the-fly
mode. -/
def contribPO (env : EnvO) (files : FileSys) (q : String) (skipM : ℕ)
    (_i : ℕ) (r : String) : List (List V3) :=
  match viewResO env files q skipM r with
  | .ok p => [filterMask p.mkp3d p.valid]
  | _ => []

/-- Per-view contribution to the outer `all_indices` list in on-the-fly
mode. -/
def contribIdxO (env : EnvO) (files : FileSys) (q : String) (skipM : ℕ)
    (i : ℕ) (r : String) : List (List ℕ) :=
  match viewResO env files q skipM r with
  | .ok p => [List.replicate (countMask p.valid) i]
  | _ => []

/-- Per-view contribution to the failure list in on-the-fly mode. -/
def contribFO (env : EnvO) (files : FileSys) (q : String) (skipM : ℕ)
    (_i : ℕ) (r : String) : List (String × String) :=
  viewFailO env files q skipM r

/-- Per-view contribution to `num_matches` in on-the-fly mode: the raw match
count of an ok view. -/
def contribNO (env : EnvO) (files : FileSys) (q : String) (skipM : ℕ)
    (r : String) : ℕ :=
  match viewResO env files q skipM r with
  | .ok p => p.mkpq.length
  | _ => 0

/-- Per-view contribution to the latency-entry count in on-the-fly mode:
1 whenever the matcher call returned (line 146 ran). -/
def contribTO (env : EnvO) (files : FileSys) (q : String) (skipM : ℕ)
    (r : String) : ℕ :=
  match viewResO env files q skipM r with
  | .failedRaise timed => if timed then 1 else 0
  | _ => 1

/-- Relation between two transform-file systems that agree everywhere except
possibly on the numeric content of 0-indexed line 10 — the fourth parsed
row — of each file: each key is either absent in both, or present in both
with equal first 10 lines, agreeing on whether line 10 exists, and with the
two line-10 parses of equal width. (The width condition is needed because
the fourth row's parsed width, unlike its values, is consulted by NumPy's
rectangularity check when the transform is applied: see `transApplyOk`.) -/
def FilesRel (files files2 : FileSys) : Prop :=
  ∀ k, (files k = none ∧ files2 k = none) ∨
    ∃ l l2, files k = some l ∧ files2 k = some l2 ∧
      l.take 10 = l2.take 10 ∧ (10 < l.length ↔ 10 < l2.length) ∧
      (fromstringModel (l.getD 10 [])).length = (fromstringModel (l2.getD 10 [])).length

/-!  Concrete data used by the witness and counterexample theorems. -/

/-- A constant depth scan of shape 2×2×3. -/
def scanConst (v : V3) : Scan := ⟨2, 2, fun _ _ => v⟩

/-- An all-NaN scan pixel. -/
def vNaN : V3 := ⟨.nan, .nan, .nan⟩

/-- A fully valid scan pixel. -/
def vGood : V3 := ⟨.val 1, .val 2, .val 3⟩

/-- A scan pixel with a NaN y channel only. -/
def vMix : V3 := ⟨.val 2, .nan, .val 5⟩

/-- An all-valid 3×3 scan. -/
def scan3 : Scan := ⟨3, 3, fun _ _ => vGood⟩

/-- A transform file: 11 lines whose 0-indexed lines 7-10 hold the identity
transform. -/
def goodLines : Lines :=
  [[], [], [], [], [], [], [],
   [.num 1, .num 0, .num 0, .num 0],
   [.num 0, .num 1, .num 0, .num 0],
   [.num 0, .num 0, .num 1, .num 0],
   [.num 0, .num 0, .num 0, .num 1]]

/-- Like `goodLines` but with a different 0-indexed line 10 (the fourth,
homogeneous row of the parsed window). -/
def goodLinesAltRow3 : Lines :=
  [[], [], [], [], [], [], [],
   [.num 1, .num 0, .num 0, .num 0],
   [.num 0, .num 1, .num 0, .num 0],
   [.num 0, .num 0, .num 1, .num 0],
   [.num 9, .num 8, .num 7, .num 6]]

/-- A transform file whose window rows carry trailing junk after the four
numeric entries. -/
def junkLines : Lines :=
  [[], [], [], [], [], [], [],
   [.num 1, .num 0, .num 0, .num 0, .junk],
   [.num 0, .num 1, .num 0, .num 0, .junk],
   [.num 0, .num 0, .num 1, .num 0, .junk],
   [.num 0, .num 0, .num 0, .num 1, .junk]]

/-- A file system holding the identity transform file at every key. -/
def filesId : FileSys := fun _ => some goodLines

/-- Same as `filesId` except for the fourth window row of every file. -/
def filesIdAlt : FileSys := fun _ => some goodLinesAltRow3

/-- A file system whose files carry trailing junk in the window rows. -/
def filesJunk : FileSys := fun _ => some junkLines

/-- Like `goodLines` but with a fourth window row of width 2: the parsed
4-row array is ragged, so applying it raises in NumPy. -/
def raggedLines : Lines :=
  [[], [], [], [], [], [], [],
   [.num 1, .num 0, .num 0, .num 0],
   [.num 0, .num 1, .num 0, .num 0],
   [.num 0, .num 0, .num 1, .num 0],
   [.num 0, .num 0]]

/-- Same as `filesId` except that every file's 0-indexed line 10 — the
fourth parsed row — is 2 numbers wide instead of 4. -/
def filesRagged : FileSys := fun _ => some raggedLines

/-- A file system with no files at all. -/
def filesNone : FileSys := fun _ => none

/-- A file system whose files are empty (fewer than 11 lines). -/
def filesShort : FileSys := fun _ => some []

/-- A solver stub that always fails (degenerate geometry). -/
def solverFail : List Pt2 → List V3 → Cfg → ℚ → Except Err PnpRet :=
  fun _ _ _ _ => .error .depErr

/-- A solver stub that always returns the identity pose with an all-true
inlier mask. -/
def solverId : List Pt2 → List V3 → Cfg → ℚ → Except Err PnpRet :=
  fun pts _ _ _ => .ok ⟨[1, 0, 0, 0], [0, 0, 0], List.replicate pts.length true⟩

/-- One matcher output row: query keypoint (0, 0), reference keypoint
(1/2, 1/2). -/
def mrow0 : MRow := ⟨0, 0, 1/2, 1/2⟩

/-- A reference image path with the `<floor>/<scan_id>/<image_name>`
structure expected by `get_scan_pose`. -/
def rRef : String := "fl1/scan1/ABC_img.jpg"

/-- A query image path. -/
def qImg : String := "query/iphone7/img_0001.jpg"

/-- A second query image path. -/
def qImg2 : String := "query/iphone7/img_0002.jpg"

/-- On-the-fly environment whose scans are all-NaN: every match interpolates
to an invalid point, and the solver rejects whatever it is given. -/
def envONaN : EnvO :=
  ⟨fun _ => (2, 2), fun _ _ => .ok [mrow0], fun _ => .ok (scanConst vNaN), solverFail⟩

/-- On-the-fly environment with valid scans and a succeeding solver. -/
def envOGood : EnvO :=
  ⟨fun _ => (2, 2), fun _ _ => .ok [mrow0], fun _ => .ok (scanConst vGood), solverId⟩

/-- On-the-fly environment with valid scans but a failing solver. -/
def envOGoodFail : EnvO :=
  ⟨fun _ => (2, 2), fun _ _ => .ok [mrow0], fun _ => .ok (scanConst vGood), solverFail⟩

/-- On-the-fly environment whose scan loader raises. -/
def envOScanRaise : EnvO :=
  ⟨fun _ => (2, 2), fun _ _ => .ok [mrow0], fun _ => .error .depErr, solverId⟩

/-- Precomputed-mode environment: one keypoint per image, one valid match,
valid scans, succeeding solver. -/
def envPGood : EnvP :=
  ⟨fun _ => (2, 2), fun _ => [(1/2, 1/2)], fun _ => [0],
   fun _ => .ok (scanConst vGood), solverId⟩

/-- Precomputed-mode environment with a failing solver. -/
def envPGoodFail : EnvP :=
  ⟨fun _ => (2, 2), fun _ => [(1/2, 1/2)], fun _ => [0],
   fun _ => .ok (scanConst vGood), solverFail⟩

/-- A second reference image path. -/
def rRef2 : String := "fl1/scan2/ABC_img2.jpg"

/-- Precomputed-mode environment in which only pairs against `rRef` have a
valid match; every other reference view has an empty match array. -/
def envPTwo : EnvP :=
  ⟨fun _ => (2, 2), fun _ => [(1/2, 1/2)],
   fun pr => if pr.2 = rRef then [0] else ([] : List ℤ),
   fun _ => .ok (scanConst vGood), solverId⟩

/-- The result of `pose_from_cluster envPTwo filesId qImg [rRef2, rRef]
(some 1)`: the first view is skipped (0 raw matches), the second contributes
its one valid correspondence annotated with reference index 1. -/
def outSkipDemo : PreResult :=
  ⟨⟨[1, 0, 0, 0], [0, 0, 0], [true]⟩,
   ⟨"SIMPLE_PINHOLE", 2, 2, [3136, 1, 1]⟩,
   [(1/2, 1/2)], [(1/2, 1/2)], [vGood], [1], 1⟩

/-- The `res_dict` produced by
`pose_from_cluster_onfly_matching envOGood filesId qImg [rRef] [] 48 1`:
one view, one valid correspondence annotated with reference index 0. -/
def rdDemo : ResDict :=
  ⟨[rRef], ⟨[1, 0, 0, 0], [0, 0, 0], [true]⟩,
   ⟨"SIMPLE_PINHOLE", 2, 2, [3136, 1, 1]⟩,
   [(0, 0)], [(1/2, 1/2)], [vGood], [0], 1⟩

/-!  Helper lemmas about the aggregation loops. -/

lemma perView_flatMap (f : ℕ → String → List α) :
    ∀ (rs : List String) (i : ℕ),
      perView f i rs = (List.range rs.length).flatMap (fun j => f (i + j) (rs.getD j "")) := by
  intro rs
  induction rs with
  | nil => intro i; simp [perView]
  | cons r rs ih =>
    intro i
    have hfun : (fun j => f (i + Nat.succ j) ((r :: rs).getD (Nat.succ j) "")) =
        fun j => f (i + 1 + j) (rs.getD j "") := by
      funext j
      have : i + Nat.succ j = i + 1 + j := by omega
      rw [this, List.getD_cons_succ]
    simp only [perView, List.length_cons, List.range_succ_eq_map, List.flatMap_cons,
      List.flatMap_map, Nat.add_zero, List.getD_cons_zero, Function.comp_def]
    rw [hfun, ih (i + 1)]

lemma perView_congr {f g : ℕ → String → List α} (h : ∀ i r, f i r = g i r) :
    ∀ (rs : List String) (i : ℕ), perView f i rs = perView g i rs := by
  intro rs
  induction rs with
  | nil => intro i; rfl
  | cons r rs ih => intro i; simp only [perView, h, ih]

lemma flatten_perView (f : ℕ → String → List (List α)) :
    ∀ (rs : List String) (i : ℕ),
      (perView f i rs).flatten = perView (fun j r => (f j r).flatten) i rs := by
  intro rs
  induction rs with
  | nil => intro i; rfl
  | cons r rs ih => intro i; simp only [perView, List.flatten_append, ih]

lemma loopP_char (env : EnvP) (files : FileSys) (q : String) (skip : Option ℕ) :
    ∀ (rs : List String) (i : ℕ) (acc fin : AccP),
      loopP env files q skip i rs acc = .ok fin →
      fin.qs = acc.qs ++ perView (contribQP env files q skip) i rs ∧
      fin.rsl = acc.rsl ++ perView (contribRP env files q skip) i rs ∧
      fin.ps = acc.ps ++ perView (contribPP env files q skip) i rs ∧
      fin.idx = acc.idx ++ perView (contribIP env files q skip) i rs := by
  intro rs
  induction rs with
  | nil =>
    intro i acc fin h
    simp only [loopP, Except.ok.injEq] at h
    subst h
    simp [perView]
  | cons r rs ih =>
    intro i acc fin h
    simp only [loopP] at h
    rcases hv : viewResP env files q skip r with e | p
    · rw [hv] at h; exact absurd h (by simp)
    · rw [hv] at h
      rcases p with _ | p
      · have := ih (i + 1) acc fin h
        simp only [perView, contribQP, contribRP, contribPP, contribIP, hv] at *
        simpa using this
      · have := ih (i + 1) (pushP acc i p) fin h
        simp only [perView, contribQP, contribRP, contribPP, contribIP, hv, pushP] at *
        simpa [List.append_assoc] using this

lemma loopO_char (env : EnvO) (files : FileSys) (q : String) (skipM : ℕ) :
    ∀ (rs : List String) (i : ℕ) (acc : AccO),
      loopO env files q skipM i rs acc =
        ⟨acc.qs ++ perView (contribQO env files q skipM) i rs,
         acc.rsl ++ perView (contribRO env files q skipM) i rs,
         acc.ps ++ perView (contribPO env files q skipM) i rs,
         acc.idx ++ perView (contribIdxO env files q skipM) i rs,
         acc.num + (rs.map (contribNO env files q skipM)).sum,
         acc.times + (rs.map (contribTO env files q skipM)).sum,
         acc.failed ++ perView (contribFO env files q skipM) i rs⟩ := by
  intro rs
  induction rs with
  | nil => intro i acc; simp [loopO, perView]
  | cons r rs ih =>
    intro i acc
    rcases hv : viewResO env files q skipM r with timed | _ | p
    · simp only [loopO, stepO, hv, ih, perView, contribQO, contribRO, contribPO,
        contribIdxO, contribFO, contribNO, contribTO, viewFailO, List.map_cons, List.sum_cons]
      rcases timed <;> simp [List.append_assoc, Nat.add_assoc]
    · simp only [loopO, stepO, hv, ih, perView, contribQO, contribRO, contribPO,
        contribIdxO, contribFO, contribNO, contribTO, viewFailO, List.map_cons, List.sum_cons]
      simp [List.append_assoc, Nat.add_assoc]
    · simp only [loopO, stepO, hv, ih, perView, contribQO, contribRO, contribPO,
        contribIdxO, contribFO, contribNO, contribTO, viewFailO, List.map_cons, List.sum_cons]
      simp [List.append_assoc, Nat.add_assoc]

lemma contribQP_flatten (env : EnvP) (files : FileSys) (q : String)
    (skip : Option ℕ) (i : ℕ) (r : String) :
    (contribQP env files q skip i r).flatten = viewSelQ env files q skip r := by
  unfold contribQP viewSelQ
  rcases viewResP env files q skip r with e | p
  · rfl
  · rcases p with _ | p <;> simp

lemma contribRP_flatten (env : EnvP) (files : FileSys) (q : String)
    (skip : Option ℕ) (i : ℕ) (r : String) :
    (contribRP env files q skip i r).flatten = viewSelR env files q skip r := by
  unfold contribRP viewSelR
  rcases viewResP env files q skip r with e | p
  · rfl
  · rcases p with _ | p <;> simp

lemma contribPP_flatten (env : EnvP) (files : FileSys) (q : String)
    (skip : Option ℕ) (i : ℕ) (r : String) :
    (contribPP env files q skip i r).flatten = viewSelP3 env files q skip r := by
  unfold contribPP viewSelP3
  rcases viewResP env files q skip r with e | p
  · rfl
  · rcases p with _ | p <;> simp

lemma contribIP_flatten (env : EnvP) (files : FileSys) (q : String)
    (skip : Option ℕ) (i : ℕ) (r : String) :
    (contribIP env files q skip i r).flatten =
      List.replicate (viewCnt env files q skip r) i := by
  unfold contribIP viewCnt
  rcases viewResP env files q skip r with e | p
  · rfl
  · rcases p with _ | p <;> simp

lemma contribIdxO_flatten (env : EnvO) (files : FileSys) (q : String)
    (skipM : ℕ) (i : ℕ) (r : String) :
    (contribIdxO env files q skipM i r).flatten =
      List.replicate (viewCntO env files q skipM r) i := by
  unfold contribIdxO viewCntO
  rcases viewResO env files q skipM r with t | _ | p <;> simp

lemma contribQO_flatten (env : EnvO) (files : FileSys) (q : String)
    (skipM : ℕ) (i : ℕ) (r : String) :
    (contribQO env files q skipM i r).flatten = viewSelQO env files q skipM r := by
  unfold contribQO viewSelQO
  rcases viewResO env files q skipM r with t | _ | p <;> simp

lemma contribRO_flatten (env : EnvO) (files : FileSys) (q : String)
    (skipM : ℕ) (i : ℕ) (r : String) :
    (contribRO env files q skipM i r).flatten = viewSelRO env files q skipM r := by
  unfold contribRO viewSelRO
  rcases viewResO env files q skipM r with t | _ | p <;> simp

lemma contribPO_flatten (env : EnvO) (files : FileSys) (q : String)
    (skipM : ℕ) (i : ℕ) (r : String) :
    (contribPO env files q skipM i r).flatten = viewSelPO env files q skipM r := by
  unfold contribPO viewSelPO
  rcases viewResO env files q skipM r with t | _ | p <;> simp

lemma filterMask_length :
    ∀ (xs : List α) (mask : List Bool), xs.length = mask.length →
      (filterMask xs mask).length = countMask mask := by
  intro xs
  induction xs with
  | nil =>
    intro mask h
    cases mask with
    | nil => rfl
    | cons b bs => simp at h
  | cons a as ih =>
    intro mask h
    cases mask with
    | nil => simp at h
    | cons b bs =>
      have h2 := ih bs (by simpa using h)
      cases b <;> simp [filterMask, countMask, List.filter_cons] at h2 ⊢ <;>
        simpa [filterMask, countMask] using h2

lemma viewResP_len {env : EnvP} {files : FileSys} {q : String} {skip : Option ℕ}
    {r : String} {p : PieceP} (h : viewResP env files q skip r = .ok (some p)) :
    p.mkpq.length = p.valid.length ∧ p.mkpr.length = p.valid.length ∧
      p.mkp3d.length = p.valid.length := by
  by_cases hskip : pythonSkip skip (matchCount (env.matches0 (names_to_pair q r))) = true
  · simp [viewResP, hskip] at h
  · rcases hscan : env.scans r with e | scan
    · simp [viewResP, hskip, hscan] at h
    · rcases hint : interpolate_scan scan
        (maskedR (env.features q) (env.features r) (env.matches0 (names_to_pair q r)))
        with e | samples
      · simp [viewResP, hskip, hscan, hint] at h
      · rcases hT : get_scan_pose files r with e | T
        · simp [viewResP, hskip, hscan, hint, hT] at h
        · by_cases htr : transApplyOk T = true
          · simp only [viewResP, hskip, hscan, hint, hT, htr, if_true, if_neg,
              Bool.not_eq_true, Except.ok.injEq, Option.some.injEq, if_false,
              Bool.false_eq_true, ite_false, ite_true] at h
            subst h
            simp only [interpolate_scan] at hint
            split at hint
            · rw [Except.ok.injEq] at hint
              subst hint
              simp [maskedQ, maskedR]
            · simp at hint
          · simp [viewResP, hskip, hscan, hint, hT, htr] at h

lemma viewResO_len {env : EnvO} {files : FileSys} {q : String} {skipM : ℕ}
    {r : String} {p : PieceO} (h : viewResO env files q skipM r = .ok p) :
    p.mkpq.length = p.valid.length ∧ p.mkpr.length = p.valid.length ∧
      p.mkp3d.length = p.valid.length := by
  rcases hm : env.matcher q r with e | rows
  · simp [viewResO, hm] at h
  · by_cases hs : rows.length < skipM
    · simp [viewResO, hm, hs] at h
    · rcases hscan : env.scans r with e | scan
      · simp [viewResO, hm, hs, hscan] at h
      · rcases hint : interpolate_scan scan
          (rows.map (fun row => (row.xr, row.yr))) with e | samples
        · simp [viewResO, hm, hs, hscan, hint] at h
        · rcases hT : get_scan_pose files r with e | T
          · simp [viewResO, hm, hs, hscan, hint, hT] at h
          · by_cases htr : transApplyOk T = true
            · simp only [viewResO, hm, hs, hscan, hint, hT, htr, if_true, if_neg,
                ViewOutO.ok.injEq, ite_false, ite_true, Bool.false_eq_true] at h
              subst h
              simp only [interpolate_scan] at hint
              split at hint
              · rw [Except.ok.injEq] at hint
                subst hint
                simp
              · simp at hint
            · simp [viewResO, hm, hs, hscan, hint, hT, htr] at h

lemma getD_map_of_lt (f : α → β) (l : List α) (i : ℕ) (hi : i < l.length)
    (d : β) (d0 : α) : (l.map f).getD i d = f (l.getD i d0) := by
  rw [List.getD_eq_getElem _ _ (by simpa using hi), List.getD_eq_getElem _ _ hi,
    List.getElem_map]

lemma take_getD :
    ∀ (n i : ℕ) (l l2 : List α) (d : α), l.take n = l2.take n → i < n →
      l.getD i d = l2.getD i d := by
  intro n
  induction n with
  | zero => intro i l l2 d _ hi; omega
  | succ n ih =>
    intro i l l2 d ht hi
    cases l with
    | nil =>
      cases l2 with
      | nil => rfl
      | cons b bs => simp at ht
    | cons a as =>
      cases l2 with
      | nil => simp at ht
      | cons b bs =>
        simp only [List.take_succ_cons, List.cons.injEq] at ht
        cases i with
        | zero => simp [ht.1]
        | succ i =>
          simp only [List.getD_cons_succ]
          exact ih i as bs d ht.2 (by omega)

lemma applyTrans_congr {T T2 : List (List ℚ)} (h : T.take 3 = T2.take 3)
    (p : V3) : applyTrans T p = applyTrans T2 p := by
  unfold applyTrans
  rw [take_getD 3 0 T T2 [] h (by omega), take_getD 3 1 T T2 [] h (by omega),
    take_getD 3 2 T T2 [] h (by omega)]

lemma gsp_badpath {files : FileSys} {r : String} (hk : transKeyOf r = none) :
    get_scan_pose files r = .error .indexErr := by
  simp [get_scan_pose, hk]

lemma gsp_absent {files : FileSys} {r : String} {k : TransKey}
    (hk : transKeyOf r = some k) (h1 : files k = none) :
    get_scan_pose files r = .error .notFound := by
  simp [get_scan_pose, hk, h1]

lemma gsp_short {files : FileSys} {r : String} {k : TransKey} {l : Lines}
    (hk : transKeyOf r = some k) (h1 : files k = some l)
    (h10 : ¬ 10 < l.length) : get_scan_pose files r = .error .indexErr := by
  simp [get_scan_pose, hk, h1, h10]

lemma gsp_window {files : FileSys} {r : String} {k : TransKey} {l : Lines}
    (hk : transKeyOf r = some k) (h1 : files k = some l)
    (h10 : 10 < l.length) :
    get_scan_pose files r =
      .ok [fromstringModel (l.getD 7 []), fromstringModel (l.getD 8 []),
           fromstringModel (l.getD 9 []), fromstringModel (l.getD 10 [])] := by
  simp [get_scan_pose, hk, h1, h10]

lemma gsp_rel {files files2 : FileSys} (h : FilesRel files files2) (r : String) :
    get_scan_pose files r = get_scan_pose files2 r ∨
    ∃ r0 r1 r2 d d2,
      get_scan_pose files r = .ok [r0, r1, r2, d] ∧
      get_scan_pose files2 r = .ok [r0, r1, r2, d2] ∧
      d.length = d2.length := by
  rcases hk : transKeyOf r with _ | k
  · exact Or.inl (by rw [gsp_badpath hk, gsp_badpath hk])
  · rcases h k with ⟨h1, h2⟩ | ⟨l, l2, h1, h2, htake, hiff, hwid⟩
    · exact Or.inl (by rw [gsp_absent hk h1, gsp_absent hk h2])
    · by_cases h10 : 10 < l.length
      · have h10b : 10 < l2.length := hiff.mp h10
        have e7 := take_getD 10 7 l l2 ([] : List Tok) htake (by omega)
        have e8 := take_getD 10 8 l l2 ([] : List Tok) htake (by omega)
        have e9 := take_getD 10 9 l l2 ([] : List Tok) htake (by omega)
        refine Or.inr ⟨fromstringModel (l.getD 7 []), fromstringModel (l.getD 8 []),
          fromstringModel (l.getD 9 []), fromstringModel (l.getD 10 []),
          fromstringModel (l2.getD 10 []), gsp_window hk h1 h10, ?_, hwid⟩
        rw [gsp_window hk h2 h10b, e7, e8, e9]
      · have h10b : ¬ 10 < l2.length := fun hb => h10 (hiff.mpr hb)
        exact Or.inl (by rw [gsp_short hk h1 h10, gsp_short hk h2 h10b])

lemma transApplyOk_row3 {r0 r1 r2 d d2 : List ℚ} (h : d.length = d2.length) :
    transApplyOk [r0, r1, r2, d] = transApplyOk [r0, r1, r2, d2] := by
  simp only [transApplyOk, List.all_cons, List.all_nil, List.getD_cons_zero]
  rw [h]

lemma viewResP_congr {files files2 : FileSys} (h : FilesRel files files2)
    (env : EnvP) (q : String) (skip : Option ℕ) (r : String) :
    viewResP env files q skip r = viewResP env files2 q skip r := by
  unfold viewResP
  rcases gsp_rel h r with heq | ⟨r0, r1, r2, d, d2, h1, h2, hlen⟩
  · rw [heq]
  · rw [h1, h2]
    have htr : transApplyOk [r0, r1, r2, d] = transApplyOk [r0, r1, r2, d2] :=
      transApplyOk_row3 hlen
    have hfn : (fun sv : V3 × Bool => applyTrans [r0, r1, r2, d] sv.1) =
        fun sv : V3 × Bool => applyTrans [r0, r1, r2, d2] sv.1 :=
      funext fun sv => applyTrans_congr (by simp) sv.1
    simp only [htr, hfn]

lemma viewResO_congr {files files2 : FileSys} (h : FilesRel files files2)
    (env : EnvO) (q : String) (skipM : ℕ) (r : String) :
    viewResO env files q skipM r = viewResO env files2 q skipM r := by
  unfold viewResO
  rcases gsp_rel h r with heq | ⟨r0, r1, r2, d, d2, h1, h2, hlen⟩
  · rw [heq]
  · rw [h1, h2]
    have htr : transApplyOk [r0, r1, r2, d] = transApplyOk [r0, r1, r2, d2] :=
      transApplyOk_row3 hlen
    have hfn : (fun sv : V3 × Bool => applyTrans [r0, r1, r2, d] sv.1) =
        fun sv : V3 × Bool => applyTrans [r0, r1, r2, d2] sv.1 :=
      funext fun sv => applyTrans_congr (by simp) sv.1
    simp only [htr, hfn]

lemma loopP_congr {files files2 : FileSys} (h : FilesRel files files2)
    (env : EnvP) (q : String) (skip : Option ℕ) :
    ∀ (rs : List String) (i : ℕ) (acc : AccP),
      loopP env files q skip i rs acc = loopP env files2 q skip i rs acc := by
  intro rs
  induction rs with
  | nil => intro i acc; rfl
  | cons r rs ih =>
    intro i acc
    simp only [loopP, viewResP_congr h env q skip r]
    rcases viewResP env files2 q skip r with e | p
    · rfl
    · rcases p with _ | p
      · exact ih (i + 1) acc
      · exact ih (i + 1) (pushP acc i p)

lemma loopO_congr {files files2 : FileSys} (h : FilesRel files files2)
    (env : EnvO) (q : String) (skipM : ℕ) :
    ∀ (rs : List String) (i : ℕ) (acc : AccO),
      loopO env files q skipM i rs acc = loopO env files2 q skipM i rs acc := by
  intro rs
  induction rs with
  | nil => intro i acc; rfl
  | cons r rs ih =>
    intro i acc
    simp only [loopO, viewResO_congr h env q skipM r]
    exact ih (i + 1) _

lemma pose_from_cluster_ok {env : EnvP} {files : FileSys} {q : String}
    {retrieved : List String} {skip : Option ℕ} {out : PreResult}
    (h : pose_from_cluster env files q retrieved skip = .ok out) :
    ∃ acc, loopP env files q skip 0 retrieved accP0 = .ok acc ∧
      out.mkpq = acc.qs.flatten ∧ out.mkpr = acc.rsl.flatten ∧
      out.mkp3d = acc.ps.flatten ∧ out.indices = acc.idx.flatten := by
  rcases hl : loopP env files q skip 0 retrieved accP0 with e | acc
  · simp [pose_from_cluster, hl] at h
  · refine ⟨acc, rfl, ?_⟩
    by_cases he : acc.qs.isEmpty
    · simp [pose_from_cluster, hl, he] at h
    · rcases hs : env.solver acc.qs.flatten acc.ps.flatten
        (mkCfg (env.dims q).2 (env.dims q).1) 48 with e | ret
      · simp [pose_from_cluster, hl, he, hs] at h
      · simp only [pose_from_cluster, hl, he, hs, Bool.false_eq_true, if_false,
          ite_false, Except.ok.injEq] at h
        subst h
        simp

lemma ch_mk (a b : V3) (c : Fin 3) :
    (V3.mk (rvSel a.x b.x) (rvSel a.y b.y) (rvSel a.z b.z)).ch c =
      rvSel (a.ch c) (b.ch c) := by
  unfold V3.ch
  split_ifs <;> rfl

lemma sampleAt_ch (s : Scan) (nkp : Pt2) (c : Fin 3) :
    ((sampleAt s nkp).1).ch c =
      rvSel ((bilinAt s nkp).ch c) ((nearAt s nkp).ch c) := by
  simp only [sampleAt]
  exact ch_mk _ _ c

lemma inOpen_iff (q : ℚ) : inOpen q = true ↔ (-1 < q ∧ q < 1) := by
  simp [inOpen]

lemma inOpen_false (q : ℚ) (h : ¬(-1 < q ∧ q < 1)) : inOpen q = false := by
  rw [Bool.eq_false_iff]
  intro hc
  exact h ((inOpen_iff q).mp hc)

lemma normCoord_strict {x : ℚ} {w : ℕ} (h0 : 0 < x) (h1 : x < (w : ℚ) - 1) :
    -1 < normCoord x w ∧ normCoord x w < 1 := by
  have hd : (0 : ℚ) < (w : ℚ) - 1 := lt_trans h0 h1
  have ht0 : 0 < x / ((w : ℚ) - 1) := div_pos h0 hd
  have ht1 : x / ((w : ℚ) - 1) < 1 := (div_lt_one hd).mpr h1
  unfold normCoord
  constructor <;> nlinarith

lemma normCoord_zero (w : ℕ) : normCoord 0 w = -1 := by
  simp [normCoord]

lemma normCoord_last {w : ℕ} (hw : 1 < w) : normCoord ((w : ℚ) - 1) w = 1 := by
  have hw2 : (1 : ℚ) < (w : ℚ) := by exact_mod_cast hw
  have hne : ((w : ℚ) - 1) ≠ 0 := ne_of_gt (by linarith)
  unfold normCoord
  rw [div_self hne]
  ring

/-!  Claim theorems. -/

/-- C2: for every sampling location and every one of the 3 coordinate
channels, if the bilinear interpolation of the depth scan at that location is
non-NaN, the value returned by the depth sampler for that channel equals the
bilinear sample; the nearest-neighbor sample is substituted exactly where the
bilinear sample is NaN. -/
theorem depth_sampler_prefers_bilinear
    (s : Scan) (kps : List Pt2) (out : List (V3 × Bool))
    (h : interpolate_scan s kps = .ok out) (i : ℕ) (hi : i < kps.length)
    (c : Fin 3) :
    ((bilinAt s (normKp s.w s.h (kps.getD i (0, 0)))).ch c ≠ RV.nan →
      ((out.getD i (vNaN, false)).1).ch c =
        (bilinAt s (normKp s.w s.h (kps.getD i (0, 0)))).ch c) ∧
    ((bilinAt s (normKp s.w s.h (kps.getD i (0, 0)))).ch c = RV.nan →
      ((out.getD i (vNaN, false)).1).ch c =
        (nearAt s (normKp s.w s.h (kps.getD i (0, 0)))).ch c) := by
  simp only [interpolate_scan] at h
  split at h
  · rw [Except.ok.injEq] at h
    subst h
    have hout : ((kps.map (normKp s.w s.h)).map (sampleAt s)).getD i (vNaN, false) =
        sampleAt s (normKp s.w s.h (kps.getD i (0, 0))) := by
      rw [List.map_map]
      exact getD_map_of_lt _ kps i hi _ (0, 0)
    rw [hout, sampleAt_ch]
    constructor
    · intro hne
      rcases hb : (bilinAt s (normKp s.w s.h (kps.getD i (0, 0)))).ch c with _ | qv
      · exact absurd hb hne
      · rfl
    · intro he
      rw [he]; rfl
  · simp at h

unseal Rat.add Rat.mul Rat.sub Rat.inv in
/-- C2 witness: a constant scan whose pixels have a NaN y channel; at the
interior keypoint (1/2, 1/2) the sampler output equals the bilinear sample on
channel 0 (non-NaN there) and the nearest-neighbor sample on channel 1 (NaN
there). -/
theorem depth_sampler_prefers_bilinear_witness :
    interpolate_scan (scanConst vMix) [(1/2, 1/2)] = .ok [(vMix, false)] ∧
    ((List.getD [(vMix, false)] 0 (vNaN, false)).1).ch 0 =
      (bilinAt (scanConst vMix)
        (normKp (scanConst vMix).w (scanConst vMix).h
          (List.getD [((1 : ℚ)/2, (1 : ℚ)/2)] 0 (0, 0)))).ch 0 ∧
    ((List.getD [(vMix, false)] 0 (vNaN, false)).1).ch 1 =
      (nearAt (scanConst vMix)
        (normKp (scanConst vMix).w (scanConst vMix).h
          (List.getD [((1 : ℚ)/2, (1 : ℚ)/2)] 0 (0, 0)))).ch 1 := by
  have h0 : interpolate_scan (scanConst vMix) [(1/2, 1/2)] = .ok [(vMix, false)] := by
    decide
  refine ⟨h0, ?_, ?_⟩
  · exact (depth_sampler_prefers_bilinear (scanConst vMix) [(1/2, 1/2)]
      [(vMix, false)] h0 0 (by decide) 0).1 (by decide)
  · exact (depth_sampler_prefers_bilinear (scanConst vMix) [(1/2, 1/2)]
      [(vMix, false)] h0 0 (by decide) 1).2 (by decide)

/-- C3: keypoints with both coordinates strictly between 0 and dim-1
normalize strictly inside (-1, 1) and pass the bounds precondition; a
coordinate equal to 0 or dim-1 normalizes to exactly -1 or +1, the
precondition fails, and `interpolate_scan` raises on any keypoint list
containing such a keypoint. -/
theorem normalized_coordinate_bounds (s : Scan) (x y : ℚ) :
    (0 < x → x < (s.w : ℚ) - 1 → 0 < y → y < (s.h : ℚ) - 1 →
      kpInBounds (normKp s.w s.h (x, y)) = true) ∧
    (1 < s.w → x = 0 → normCoord x s.w = -1) ∧
    (1 < s.w → x = (s.w : ℚ) - 1 → normCoord x s.w = 1) ∧
    (1 < s.h → y = 0 → normCoord y s.h = -1) ∧
    (1 < s.h → y = (s.h : ℚ) - 1 → normCoord y s.h = 1) ∧
    ((x = 0 ∨ x = (s.w : ℚ) - 1 ∨ y = 0 ∨ y = (s.h : ℚ) - 1) → 1 < s.w → 1 < s.h →
      kpInBounds (normKp s.w s.h (x, y)) = false ∧
      ∀ kps, (x, y) ∈ kps → interpolate_scan s kps = .error .assertErr) := by
  refine ⟨?_, ?_, ?_, ?_, ?_, ?_⟩
  · intro hx0 hx1 hy0 hy1
    obtain ⟨ha, hb⟩ := normCoord_strict hx0 hx1
    obtain ⟨hc, hd⟩ := normCoord_strict hy0 hy1
    simp only [kpInBounds, normKp, inOpen, Bool.and_eq_true, decide_eq_true_eq]
    exact ⟨⟨ha, hb⟩, hc, hd⟩
  · intro _ hx; rw [hx]; exact normCoord_zero s.w
  · intro hw hx; rw [hx]; exact normCoord_last hw
  · intro _ hy; rw [hy]; exact normCoord_zero s.h
  · intro hh hy; rw [hy]; exact normCoord_last hh
  · intro hcase hw hh
    have hfalse : kpInBounds (normKp s.w s.h (x, y)) = false := by
      rcases hcase with hx | hx | hy | hy
      · have hv : normCoord x s.w = -1 := by rw [hx]; exact normCoord_zero s.w
        have hop : inOpen (normCoord x s.w) = false :=
          inOpen_false _ (by rw [hv]; rintro ⟨h1, _⟩; exact lt_irrefl _ h1)
        simp [kpInBounds, normKp, hop]
      · have hv : normCoord x s.w = 1 := by rw [hx]; exact normCoord_last hw
        have hop : inOpen (normCoord x s.w) = false :=
          inOpen_false _ (by rw [hv]; rintro ⟨_, h2⟩; exact lt_irrefl _ h2)
        simp [kpInBounds, normKp, hop]
      · have hv : normCoord y s.h = -1 := by rw [hy]; exact normCoord_zero s.h
        have hop : inOpen (normCoord y s.h) = false :=
          inOpen_false _ (by rw [hv]; rintro ⟨h1, _⟩; exact lt_irrefl _ h1)
        simp [kpInBounds, normKp, hop]
      · have hv : normCoord y s.h = 1 := by rw [hy]; exact normCoord_last hh
        have hop : inOpen (normCoord y s.h) = false :=
          inOpen_false _ (by rw [hv]; rintro ⟨_, h2⟩; exact lt_irrefl _ h2)
        simp [kpInBounds, normKp, hop]
    refine ⟨hfalse, ?_⟩
    intro kps hmem
    have hall : (kps.map (normKp s.w s.h)).all kpInBounds = false := by
      rw [List.all_eq_false]
      exact ⟨normKp s.w s.h (x, y), List.mem_map_of_mem _ hmem, by simp [hfalse]⟩
    simp [interpolate_scan, hall]

unseal Rat.add Rat.mul Rat.sub Rat.inv in
/-- C3 witness: on a 3×3 scan, the interior keypoint (1, 1) passes the
precondition; the boundary coordinates 0 and 2 normalize to -1 and +1, the
boundary keypoint (0, 1) fails the precondition and makes `interpolate_scan`
raise. -/
theorem normalized_coordinate_bounds_witness :
    kpInBounds (normKp scan3.w scan3.h ((1 : ℚ), (1 : ℚ))) = true ∧
    normCoord 0 scan3.w = -1 ∧
    normCoord ((scan3.w : ℚ) - 1) scan3.w = 1 ∧
    kpInBounds (normKp scan3.w scan3.h ((0 : ℚ), (1 : ℚ))) = false ∧
    interpolate_scan scan3 [((0 : ℚ), (1 : ℚ))] = .error .assertErr := by
  have hin := (normalized_coordinate_bounds scan3 1 1).1
    (by decide) (by decide) (by decide) (by decide)
  have hzero := (normalized_coordinate_bounds scan3 0 1).2.1 (by decide) rfl
  have hlast := (normalized_coordinate_bounds scan3 ((scan3.w : ℚ) - 1) 1).2.2.1
    (by decide) rfl
  have hbound := (normalized_coordinate_bounds scan3 0 1).2.2.2.2.2
    (Or.inl rfl) (by decide) (by decide)
  exact ⟨hin, hzero, hlast, hbound.1, hbound.2 [((0 : ℚ), (1 : ℚ))] (by decide)⟩

/-- C9 amended: the rigid-transform step `global = R·local + t` with the
identity rotation and zero translation returns every NaN-free interpolated
3D point unchanged. (Points with a NaN channel are not preserved: IEEE
multiplication by the rotation row propagates the NaN into every channel —
see the counterexample theorem.) -/
theorem identity_transform_on_points (a b c : ℚ) :
    applyTrans idTrans4 ⟨.val a, .val b, .val c⟩ = ⟨.val a, .val b, .val c⟩ := by
  simp [applyTrans, idTrans4, dotRow, RV.scale, RV.add]

unseal Rat.add Rat.mul Rat.sub Rat.inv in
/-- C9 counterexample: an interpolated point with a NaN y channel (produced
by `interpolate_scan` on a scan whose y channel is NaN) is not returned
unchanged by the identity transform — `0 * NaN = NaN` floods every
channel. -/
theorem identity_transform_on_points_counterexample :
    interpolate_scan (scanConst vMix) [((1 : ℚ)/2, (1 : ℚ)/2)] = .ok [(vMix, false)] ∧
    applyTrans idTrans4 vMix = ⟨.nan, .nan, .nan⟩ ∧
    applyTrans idTrans4 vMix ≠ vMix := by
  refine ⟨by decide, by decide, by decide⟩

/-- C6 amended: the scan-frame provider parses the rigid transform exactly
from the fixed window of 0-indexed lines 7-10; it fails with a
resource-not-found error when the file is absent, and with an index error
when the window is missing (fewer than 11 lines). When the window is
present it never fails: each row is parsed leniently as its greedy numeric
prefix, so malformed numeric content does not raise a parse error. -/
theorem scan_pose_parse_behavior (files : FileSys) (r : String) (k : TransKey)
    (hk : transKeyOf r = some k) :
    (files k = none → get_scan_pose files r = .error .notFound) ∧
    (∀ l, files k = some l → ¬ 10 < l.length →
      get_scan_pose files r = .error .indexErr) ∧
    (∀ l, files k = some l → 10 < l.length →
      get_scan_pose files r =
        .ok [fromstringModel (l.getD 7 []), fromstringModel (l.getD 8 []),
             fromstringModel (l.getD 9 []), fromstringModel (l.getD 10 [])]) :=
  ⟨fun h1 => gsp_absent hk h1,
   fun _ h1 h10 => gsp_short hk h1 h10,
   fun _ h1 h10 => gsp_window hk h1 h10⟩

unseal Rat.add Rat.mul Rat.sub Rat.inv in
/-- C6 witness: the three behaviors at a concrete reference path — absent
file, file with too few lines, and a well-formed 11-line file. -/
theorem scan_pose_parse_behavior_witness :
    get_scan_pose filesNone rRef = .error .notFound ∧
    get_scan_pose filesShort rRef = .error .indexErr ∧
    get_scan_pose filesId rRef =
      .ok [fromstringModel (goodLines.getD 7 []), fromstringModel (goodLines.getD 8 []),
           fromstringModel (goodLines.getD 9 []), fromstringModel (goodLines.getD 10 [])] := by
  have hk : transKeyOf rRef = some ("fl1", "ABC", "scan1") := by decide
  exact ⟨(scan_pose_parse_behavior filesNone rRef _ hk).1 rfl,
         (scan_pose_parse_behavior filesShort rRef _ hk).2.1 [] rfl (by decide),
         (scan_pose_parse_behavior filesId rRef _ hk).2.2 goodLines rfl (by decide)⟩

unseal Rat.add Rat.mul Rat.sub Rat.inv in
/-- C6 counterexample: a transform file whose window rows carry trailing
non-numeric junk — a window that cannot be parsed as 4 clean numeric rows —
does not raise a parse error: `get_scan_pose` silently returns the numeric
prefixes. -/
theorem junk_window_parses_without_error :
    get_scan_pose filesJunk rRef = .ok idTrans4 := by decide

/-- C4: in on-the-fly mode, a reference view whose processing (matching,
depth-scan loading, interpolation, or transform resolution — the
transform's application to an ill-formed parse included) raises is caught
at the per-pair boundary: the loop step returns normally (the aggregation
loop is a total function), the (query, reference) pair is appended to the
failure list, the view contributes nothing to any correspondence
accumulator, and aggregation continues with the remaining reference
views. -/
theorem onfly_per_pair_failure_contained (env : EnvO) (files : FileSys)
    (q : String) (skipM : ℕ) (i : ℕ) (r : String) (rs : List String)
    (acc : AccO) (timed : Bool)
    (h : viewResO env files q skipM r = .failedRaise timed) :
    loopO env files q skipM i (r :: rs) acc =
      loopO env files q skipM (i + 1) rs
        { acc with failed := acc.failed ++ [(q, r)],
                   times := acc.times + (if timed then 1 else 0) } := by
  simp [loopO, stepO, h]

unseal Rat.add Rat.mul Rat.sub Rat.inv in
/-- C4 witness: an environment whose scan loader raises; the view's
exception is contained, the pair lands in the failure list, and the loop
continues over the (empty) remainder. -/
theorem onfly_per_pair_failure_contained_witness :
    viewResO envOScanRaise filesId qImg 1 rRef = .failedRaise true ∧
    loopO envOScanRaise filesId qImg 1 0 [rRef] accO0 =
      loopO envOScanRaise filesId qImg 1 1 []
        { accO0 with failed := accO0.failed ++ [(qImg, rRef)],
                     times := accO0.times + 1 } := by
  have h : viewResO envOScanRaise filesId qImg 1 rRef = .failedRaise true := by decide
  exact ⟨h, onfly_per_pair_failure_contained envOScanRaise filesId qImg 1 0 rRef []
    accO0 true h⟩

/-- C1 amended: in on-the-fly mode the no-correspondence guard is the raw
match counter `num_matches`: when it is zero the solver is not invoked (the
result is `.ok` for every solver, including an always-failing one), the
query is returned as unlocalized (`None` record), the orchestrator loop
continues with the next query logging `None` for this one, and a query
absent from `poses` produces no pose-table line. -/
theorem zero_raw_matches_returns_unlocalized (env : EnvO) (files : FileSys)
    (q : String) (retrieved : List String) (poses : Poses) (rthres : ℚ)
    (skipM : ℕ)
    (h : (loopO env files q skipM 0 retrieved accO0).num = 0) :
    pose_from_cluster_onfly_matching env files q retrieved poses rthres skipM =
      .ok (none, (loopO env files q skipM 0 retrieved accO0).failed,
           (loopO env files q skipM 0 retrieved accO0).times, poses) ∧
    (∀ rest locs fails,
      locLoop env files rthres skipM ((q, retrieved) :: rest) poses locs fails =
        locLoop env files rthres skipM rest poses (locs ++ [(q, none)])
          (fails ++ (loopO env files q skipM 0 retrieved accO0).failed)) ∧
    (∀ q2, List.lookup q2 poses = none → resLines poses [q2] = []) := by
  refine ⟨?_, ?_, ?_⟩
  · simp [pose_from_cluster_onfly_matching, h]
  · intro rest locs fails
    simp [locLoop, pose_from_cluster_onfly_matching, h]
  · intro q2 h2
    simp [resLines, h2]

unseal Rat.add Rat.mul Rat.sub Rat.inv in
/-- C1 amended witness: with `skip_matches = 5` the single view's 1 raw
match is below threshold, `num_matches` stays 0, the query is returned
unlocalized and produces no pose-table line. -/
theorem zero_raw_matches_returns_unlocalized_witness :
    (loopO envOGood filesId qImg 5 0 [rRef] accO0).num = 0 ∧
    pose_from_cluster_onfly_matching envOGood filesId qImg [rRef] [] 48 5 =
      .ok (none, (loopO envOGood filesId qImg 5 0 [rRef] accO0).failed,
           (loopO envOGood filesId qImg 5 0 [rRef] accO0).times, []) ∧
    resLines [] [qImg] = [] := by
  have h : (loopO envOGood filesId qImg 5 0 [rRef] accO0).num = 0 := by decide
  have happ := zero_raw_matches_returns_unlocalized envOGood filesId qImg [rRef]
    [] 48 5 h
  exact ⟨h, happ.1, happ.2.2 qImg rfl⟩

set_option synthInstance.maxSize 1024 in
unseal Rat.add Rat.mul Rat.sub Rat.inv in
/-- C1 counterexample: a query whose aggregation yields zero valid 2D-3D
correspondences (the single view's only match interpolates to an all-NaN,
invalid point) but whose raw match counter is 1: the pose solver IS invoked
— with an always-failing solver the call returns its error, which also
propagates instead of marking the query unlocalized — contradicting the
claim that the solver is not invoked and processing continues. -/
theorem zero_valid_correspondences_still_solves :
    (loopO envONaN filesId qImg 1 0 [rRef] accO0).qs.flatten = [] ∧
    (loopO envONaN filesId qImg 1 0 [rRef] accO0).ps.flatten = [] ∧
    (loopO envONaN filesId qImg 1 0 [rRef] accO0).num = 1 ∧
    pose_from_cluster_onfly_matching envONaN filesId qImg [rRef] [] 48 1 =
      .error .depErr := by
  refine ⟨by decide, by decide, by decide, by decide⟩

/-- C5 amended: when the external solver fails on a query that reached the
SOLVE step, the failure propagates uncaught out of the per-query loop in
both orchestrators: the whole run aborts with the solver's error (no pose
table or log is produced), the query is not recorded as unlocalized, and
the remaining queries are not processed. -/
theorem solver_failure_aborts_run :
    (∀ (env : EnvO) (files : FileSys) (rthres : ℚ) (skipM : ℕ) (q : String)
        (retrieved : List String) (rest : List (String × List String)) (e : Err),
      pose_from_cluster_onfly_matching env files q retrieved [] rthres skipM = .error e →
      localize_with_matcher env files ((q, retrieved) :: rest) rthres skipM = .error e) ∧
    (∀ (env : EnvP) (files : FileSys) (skip : Option ℕ) (q : String)
        (db : List String) (rest : List (String × List String)) (e : Err),
      pose_from_cluster env files q db skip = .error e →
      main env files ((q, db) :: rest) skip = .error e) := by
  constructor
  · intro env files rthres skipM q retrieved rest e h
    simp [localize_with_matcher, locLoop, h]
  · intro env files skip q db rest e h
    simp [main, mainLoop, h]

set_option synthInstance.maxSize 1024 in
unseal Rat.add Rat.mul Rat.sub Rat.inv in
/-- C5 amended witness: a concrete run whose first query reaches SOLVE and
whose solver fails; the whole run returns the solver's error. -/
theorem solver_failure_aborts_run_witness :
    pose_from_cluster_onfly_matching envOGoodFail filesId qImg [rRef] [] 48 1 =
      .error .depErr ∧
    localize_with_matcher envOGoodFail filesId [(qImg, [rRef]), (qImg2, [rRef])] 48 1 =
      .error .depErr := by
  have h : pose_from_cluster_onfly_matching envOGoodFail filesId qImg [rRef] [] 48 1 =
      .error .depErr := by decide
  exact ⟨h, solver_failure_aborts_run.1 envOGoodFail filesId 48 1 qImg [rRef]
    [(qImg2, [rRef])] .depErr h⟩

set_option synthInstance.maxSize 1024 in
unseal Rat.add Rat.mul Rat.sub Rat.inv in
/-- C5 counterexample: a two-query run in which the first query reaches the
SOLVE step and the solver fails. The run result is the propagated error —
no pose table exists, the first query is not recorded as unlocalized, and
the second query is never processed — contradicting the claim that only
that query's SOLVE step is aborted and the orchestrator continues. -/
theorem solver_failure_does_not_continue :
    localize_with_matcher envOGoodFail filesId
      [(qImg, [rRef]), (qImg2, [rRef])] 48 1 = .error .depErr := by
  decide

lemma viewResP_skip {env : EnvP} {files : FileSys} {q : String}
    {skip : Option ℕ} {r : String}
    (hskip : pythonSkip skip (matchCount (env.matches0 (names_to_pair q r))) = true) :
    viewResP env files q skip r = .ok none := by
  simp [viewResP, hskip]

lemma viewCnt_eq_zero {env : EnvP} {files : FileSys} {q : String}
    {skip : Option ℕ} {r : String}
    (hv : viewResP env files q skip r = .ok none) :
    viewCnt env files q skip r = 0 := by
  simp [viewCnt, hv]

lemma viewCntO_eq_zero {env : EnvO} {files : FileSys} {q : String}
    {skipM : ℕ} {r : String}
    (hv : viewResO env files q skipM r = .skipped) :
    viewCntO env files q skipM r = 0 := by
  simp [viewCntO, hv]

lemma mem_contribFO_skipped {env : EnvO} {files : FileSys} {q : String}
    {skipM : ℕ} {r : String} (i : ℕ)
    (hv : viewResO env files q skipM r = .skipped) :
    (q, r) ∈ contribFO env files q skipM i r := by
  simp [contribFO, viewFailO, hv]

/-- C7: a reference view whose raw valid match count is strictly below the
configured skip threshold contributes zero correspondences to the query's
aggregate (no aggregated correspondence carries its reference index), and in
on-the-fly mode the (query, reference) pair additionally appears in the
failure list. -/
theorem below_threshold_view_contributes_nothing :
    (∀ (env : EnvP) (files : FileSys) (q : String) (retrieved : List String)
        (s : ℕ) (out : PreResult) (i : ℕ), i < retrieved.length →
      matchCount (env.matches0 (names_to_pair q (retrieved.getD i ""))) < s →
      pose_from_cluster env files q retrieved (some s) = .ok out →
      ¬ i ∈ out.indices) ∧
    (∀ (env : EnvO) (files : FileSys) (q : String) (retrieved : List String)
        (skipM : ℕ) (i : ℕ), i < retrieved.length →
      viewResO env files q skipM (retrieved.getD i "") = .skipped →
      (q, retrieved.getD i "") ∈ (loopO env files q skipM 0 retrieved accO0).failed ∧
      ¬ i ∈ (loopO env files q skipM 0 retrieved accO0).idx.flatten) := by
  constructor
  · intro env files q retrieved s out i hi hcnt hok
    have hskip : pythonSkip (some s)
        (matchCount (env.matches0 (names_to_pair q (retrieved.getD i "")))) = true := by
      simp only [pythonSkip, Bool.and_eq_true, decide_eq_true_eq]
      exact ⟨by omega, hcnt⟩
    have hv : viewResP env files q (some s) (retrieved.getD i "") = .ok none :=
      viewResP_skip hskip
    obtain ⟨acc, hacc, _, _, _, hidx⟩ := pose_from_cluster_ok hok
    obtain ⟨_, _, _, ci⟩ := loopP_char env files q (some s) retrieved 0 accP0 acc hacc
    rw [hidx, ci]
    simp only [accP0, List.nil_append]
    rw [flatten_perView,
      perView_congr (fun j r => contribIP_flatten env files q (some s) j r) retrieved 0,
      perView_flatMap]
    intro hmem
    rw [List.mem_flatMap] at hmem
    obtain ⟨j, hjr, hjm⟩ := hmem
    rw [List.mem_range] at hjr
    rw [List.mem_replicate] at hjm
    obtain ⟨hne, hij⟩ := hjm
    have hj : j = i := by omega
    subst hj
    exact hne (viewCnt_eq_zero hv)
  · intro env files q retrieved skipM i hi hv
    have hchar := loopO_char env files q skipM retrieved 0 accO0
    constructor
    · rw [hchar]
      simp only [accO0, List.nil_append]
      rw [perView_flatMap]
      rw [List.mem_flatMap]
      exact ⟨i, List.mem_range.mpr hi, mem_contribFO_skipped (0 + i) hv⟩
    · rw [hchar]
      simp only [accO0, List.nil_append]
      rw [flatten_perView,
        perView_congr (fun j r => contribIdxO_flatten env files q skipM j r) retrieved 0,
        perView_flatMap]
      intro hmem
      rw [List.mem_flatMap] at hmem
      obtain ⟨j, hjr, hjm⟩ := hmem
      rw [List.mem_range] at hjr
      rw [List.mem_replicate] at hjm
      obtain ⟨hne, hij⟩ := hjm
      have hj : j = i := by omega
      subst hj
      exact hne (viewCntO_eq_zero hv)

set_option synthInstance.maxSize 1024 in
unseal Rat.add Rat.mul Rat.sub Rat.inv in
/-- C7 witness: precomputed mode — view 0 of two has 0 < 1 raw matches and
its index is absent from the aggregate; on-the-fly mode — the single view's
1 < 5 raw matches put the pair in the failure list and keep its index out of
the aggregate. -/
theorem below_threshold_view_contributes_nothing_witness :
    (¬ 0 ∈ outSkipDemo.indices) ∧
    ((qImg, rRef) ∈ (loopO envOGood filesId qImg 5 0 [rRef] accO0).failed ∧
     ¬ 0 ∈ (loopO envOGood filesId qImg 5 0 [rRef] accO0).idx.flatten) := by
  constructor
  · exact below_threshold_view_contributes_nothing.1 envPTwo filesId qImg
      [rRef2, rRef] 1 outSkipDemo 0 (by decide) (by decide) (by decide)
  · exact below_threshold_view_contributes_nothing.2 envOGood filesId qImg
      [rRef] 5 0 (by decide) (by decide)

/-- C8: in both aggregation modes, the aggregated parallel arrays are
exactly the in-order concatenation of the per-view contributions: each
correspondence's source-reference-index annotation equals the position of
the reference image that produced it in the input retrieval list (the index
array is the concatenation over list positions i of per-view-count copies
of i, parallel to the per-view point blocks), so the aggregate is grouped
in retrieval-list order. The precomputed half characterizes the
`pose_from_cluster` result; the on-the-fly half characterizes the loop
accumulator of `pose_from_cluster_onfly_matching` and ties the returned
`res_dict` fields (`indices_db` included) to it. -/
theorem aggregated_indices_match_retrieval_positions :
    (∀ (env : EnvP) (files : FileSys) (q : String) (retrieved : List String)
        (skip : Option ℕ) (out : PreResult),
      pose_from_cluster env files q retrieved skip = .ok out →
      out.indices = (List.range retrieved.length).flatMap
        (fun i => List.replicate (viewCnt env files q skip (retrieved.getD i "")) i) ∧
      out.mkpq = (List.range retrieved.length).flatMap
        (fun i => viewSelQ env files q skip (retrieved.getD i "")) ∧
      out.mkpr = (List.range retrieved.length).flatMap
        (fun i => viewSelR env files q skip (retrieved.getD i "")) ∧
      out.mkp3d = (List.range retrieved.length).flatMap
        (fun i => viewSelP3 env files q skip (retrieved.getD i "")) ∧
      ∀ r, (viewSelQ env files q skip r).length = viewCnt env files q skip r ∧
           (viewSelR env files q skip r).length = viewCnt env files q skip r ∧
           (viewSelP3 env files q skip r).length = viewCnt env files q skip r) ∧
    (∀ (env : EnvO) (files : FileSys) (q : String) (retrieved : List String)
        (skipM : ℕ),
      (loopO env files q skipM 0 retrieved accO0).idx.flatten =
        (List.range retrieved.length).flatMap
          (fun i => List.replicate (viewCntO env files q skipM (retrieved.getD i "")) i) ∧
      (loopO env files q skipM 0 retrieved accO0).qs.flatten =
        (List.range retrieved.length).flatMap
          (fun i => viewSelQO env files q skipM (retrieved.getD i "")) ∧
      (loopO env files q skipM 0 retrieved accO0).rsl.flatten =
        (List.range retrieved.length).flatMap
          (fun i => viewSelRO env files q skipM (retrieved.getD i "")) ∧
      (loopO env files q skipM 0 retrieved accO0).ps.flatten =
        (List.range retrieved.length).flatMap
          (fun i => viewSelPO env files q skipM (retrieved.getD i "")) ∧
      (∀ r, (viewSelQO env files q skipM r).length = viewCntO env files q skipM r ∧
            (viewSelRO env files q skipM r).length = viewCntO env files q skipM r ∧
            (viewSelPO env files q skipM r).length = viewCntO env files q skipM r) ∧
      (∀ (poses : Poses) (rthres : ℚ) (rd : ResDict)
          (failed : List (String × String)) (t : ℕ) (poses2 : Poses),
        pose_from_cluster_onfly_matching env files q retrieved poses rthres skipM =
          .ok (some rd, failed, t, poses2) →
        rd.idx = (loopO env files q skipM 0 retrieved accO0).idx.flatten ∧
        rd.kq = (loopO env files q skipM 0 retrieved accO0).qs.flatten ∧
        rd.kr = (loopO env files q skipM 0 retrieved accO0).rsl.flatten ∧
        rd.p3 = (loopO env files q skipM 0 retrieved accO0).ps.flatten)) := by
  constructor
  · intro env files q retrieved skip out h
    obtain ⟨acc, hacc, hq, hr, hp, hidx⟩ := pose_from_cluster_ok h
    obtain ⟨cq, cr, cp, ci⟩ := loopP_char env files q skip retrieved 0 accP0 acc hacc
    refine ⟨?_, ?_, ?_, ?_, ?_⟩
    · rw [hidx, ci]
      simp only [accP0, List.nil_append]
      rw [flatten_perView,
        perView_congr (fun j r => contribIP_flatten env files q skip j r) retrieved 0,
        perView_flatMap]
      simp only [Nat.zero_add]
    · rw [hq, cq]
      simp only [accP0, List.nil_append]
      rw [flatten_perView,
        perView_congr (fun j r => contribQP_flatten env files q skip j r) retrieved 0,
        perView_flatMap]
    · rw [hr, cr]
      simp only [accP0, List.nil_append]
      rw [flatten_perView,
        perView_congr (fun j r => contribRP_flatten env files q skip j r) retrieved 0,
        perView_flatMap]
    · rw [hp, cp]
      simp only [accP0, List.nil_append]
      rw [flatten_perView,
        perView_congr (fun j r => contribPP_flatten env files q skip j r) retrieved 0,
        perView_flatMap]
    · intro r
      rcases hvr : viewResP env files q skip r with e | op
      · simp [viewSelQ, viewSelR, viewSelP3, viewCnt, hvr]
      · rcases op with _ | p
        · simp [viewSelQ, viewSelR, viewSelP3, viewCnt, hvr]
        · obtain ⟨l1, l2, l3⟩ := viewResP_len hvr
          simp only [viewSelQ, viewSelR, viewSelP3, viewCnt, hvr]
          exact ⟨filterMask_length _ _ l1, filterMask_length _ _ l2,
            filterMask_length _ _ l3⟩
  · intro env files q retrieved skipM
    have hchar := loopO_char env files q skipM retrieved 0 accO0
    refine ⟨?_, ?_, ?_, ?_, ?_, ?_⟩
    · rw [hchar]
      simp only [accO0, List.nil_append]
      rw [flatten_perView,
        perView_congr (fun j r => contribIdxO_flatten env files q skipM j r) retrieved 0,
        perView_flatMap]
      simp only [Nat.zero_add]
    · rw [hchar]
      simp only [accO0, List.nil_append]
      rw [flatten_perView,
        perView_congr (fun j r => contribQO_flatten env files q skipM j r) retrieved 0,
        perView_flatMap]
    · rw [hchar]
      simp only [accO0, List.nil_append]
      rw [flatten_perView,
        perView_congr (fun j r => contribRO_flatten env files q skipM j r) retrieved 0,
        perView_flatMap]
    · rw [hchar]
      simp only [accO0, List.nil_append]
      rw [flatten_perView,
        perView_congr (fun j r => contribPO_flatten env files q skipM j r) retrieved 0,
        perView_flatMap]
    · intro r
      rcases hvr : viewResO env files q skipM r with timed | _ | p
      · simp [viewSelQO, viewSelRO, viewSelPO, viewCntO, hvr]
      · simp [viewSelQO, viewSelRO, viewSelPO, viewCntO, hvr]
      · obtain ⟨l1, l2, l3⟩ := viewResO_len hvr
        simp only [viewSelQO, viewSelRO, viewSelPO, viewCntO, hvr]
        exact ⟨filterMask_length _ _ l1, filterMask_length _ _ l2,
          filterMask_length _ _ l3⟩
    · intro poses rthres rd failed t poses2 hok
      by_cases hnum : (loopO env files q skipM 0 retrieved accO0).num = 0
      · simp [pose_from_cluster_onfly_matching, hnum] at hok
      · rcases hs : env.solver (loopO env files q skipM 0 retrieved accO0).qs.flatten
          (loopO env files q skipM 0 retrieved accO0).ps.flatten
          (mkCfg (env.dims q).2 (env.dims q).1) rthres with e | ret
        · simp [pose_from_cluster_onfly_matching, hnum, hs] at hok
        · simp only [pose_from_cluster_onfly_matching, hnum, hs, if_neg,
            Except.ok.injEq, Prod.mk.injEq, Option.some.injEq, ite_false] at hok
          obtain ⟨h1, -⟩ := hok
          rw [← h1]
          exact ⟨rfl, rfl, rfl, rfl⟩

set_option synthInstance.maxSize 1024 in
unseal Rat.add Rat.mul Rat.sub Rat.inv in
/-- C8 witness: precomputed mode — the concrete two-view aggregation where
the surviving second view produces the single correspondence annotated with
index 1; on-the-fly mode — the concrete single-view aggregation whose
returned `res_dict` carries `indices_db = [0]`, equal to the loop
accumulator's flattened index array. -/
theorem aggregated_indices_match_retrieval_positions_witness :
    outSkipDemo.indices = (List.range ([rRef2, rRef].length)).flatMap
      (fun i => List.replicate
        (viewCnt envPTwo filesId qImg (some 1) ([rRef2, rRef].getD i "")) i) ∧
    (viewSelQ envPTwo filesId qImg (some 1) rRef).length =
      viewCnt envPTwo filesId qImg (some 1) rRef ∧
    (loopO envOGood filesId qImg 1 0 [rRef] accO0).idx.flatten =
      (List.range ([rRef].length)).flatMap
        (fun i => List.replicate (viewCntO envOGood filesId qImg 1 ([rRef].getD i "")) i) ∧
    rdDemo.idx = (loopO envOGood filesId qImg 1 0 [rRef] accO0).idx.flatten := by
  have h1 := aggregated_indices_match_retrieval_positions.1 envPTwo filesId qImg
    [rRef2, rRef] (some 1) outSkipDemo (by decide)
  have h2 := aggregated_indices_match_retrieval_positions.2 envOGood filesId qImg
    [rRef] 1
  refine ⟨h1.1, (h1.2.2.2.2 rRef).1, h2.1, ?_⟩
  exact (h2.2.2.2.2.2 [] 48 rdDemo [] 1 [(qImg, ([1, 0, 0, 0], [0, 0, 0]))]
    (by decide)).1

/-- C10 amended: the scan-frame provider parses and returns four rows (the
homogeneous bottom row included), not a 3×4 matrix; and since both
aggregation pipelines read only the top three rows of the parsed transform
(the 3×3 block and each of those rows' last entry), the fourth row's
numeric VALUES never influence any computed correspondence or pose: two
file systems whose transform files differ only in 0-indexed line 10 — the
fourth parsed row — produce identical results in both pipelines, provided
the two fourth rows parse to the same width. (The width proviso is forced
by the counterexample theorem: a fourth row of a different width makes the
parsed array ragged and the NumPy transform application raise, which does
change the output.) -/
theorem fourth_transform_row_is_inert :
    (∀ (files : FileSys) (r : String) (rows : List (List ℚ)),
      get_scan_pose files r = .ok rows → rows.length = 4) ∧
    (∀ files files2, FilesRel files files2 →
      (∀ (env : EnvP) (q : String) (retrieved : List String) (skip : Option ℕ),
        pose_from_cluster env files q retrieved skip =
          pose_from_cluster env files2 q retrieved skip) ∧
      (∀ (env : EnvO) (q : String) (retrieved : List String) (poses : Poses)
          (rthres : ℚ) (skipM : ℕ),
        pose_from_cluster_onfly_matching env files q retrieved poses rthres skipM =
          pose_from_cluster_onfly_matching env files2 q retrieved poses rthres skipM)) := by
  constructor
  · intro files r rows h
    rcases hk : transKeyOf r with _ | k
    · rw [gsp_badpath hk] at h; simp at h
    · rcases hf : files k with _ | l
      · rw [gsp_absent hk hf] at h; simp at h
      · by_cases h10 : 10 < l.length
        · rw [gsp_window hk hf h10] at h
          rw [Except.ok.injEq] at h
          rw [← h]
          rfl
        · rw [gsp_short hk hf h10] at h; simp at h
  · intro files files2 hrel
    constructor
    · intro env q retrieved skip
      simp only [pose_from_cluster, loopP_congr hrel env q skip retrieved 0 accP0]
    · intro env q retrieved poses rthres skipM
      simp only [pose_from_cluster_onfly_matching,
        loopO_congr hrel env q skipM retrieved 0 accO0]

set_option synthInstance.maxSize 1024 in
unseal Rat.add Rat.mul Rat.sub Rat.inv in
/-- C10 witness: two concrete file systems differing only in the fourth
window row give identical on-the-fly results at a concrete query, and the
parsed transform has exactly 4 rows. -/
theorem fourth_transform_row_is_inert_witness :
    pose_from_cluster_onfly_matching envOGood filesId qImg [rRef] [] 48 1 =
      pose_from_cluster_onfly_matching envOGood filesIdAlt qImg [rRef] [] 48 1 ∧
    get_scan_pose filesId rRef = .ok idTrans4 ∧
    idTrans4.length = 4 := by
  have hrel : FilesRel filesId filesIdAlt := fun k =>
    Or.inr ⟨goodLines, goodLinesAltRow3, rfl, rfl, by decide, by decide⟩
  refine ⟨(fourth_transform_row_is_inert.2 filesId filesIdAlt hrel).2 envOGood
    qImg [rRef] [] 48 1, by decide,
    fourth_transform_row_is_inert.1 filesId rRef idTrans4 (by decide)⟩

set_option synthInstance.maxSize 1024 in
unseal Rat.add Rat.mul Rat.sub Rat.inv in
/-- C10 counterexample: two file systems that differ only in the fourth
window row — `filesId` with the 4-wide homogeneous row, `filesRagged` with
a 2-wide one — produce different pipeline outputs: the ragged parse makes
the NumPy transform application raise, the view fails per-pair, and the
query goes unlocalized instead of being posed. So the fourth row, through
its parsed width, does influence the computed correspondences and pose,
refuting the unconditional "never influences" claim. -/
theorem fourth_row_width_changes_output :
    pose_from_cluster_onfly_matching envOGood filesId qImg [rRef] [] 48 1 =
      .ok (some rdDemo, [], 1, [(qImg, ([1, 0, 0, 0], [0, 0, 0]))]) ∧
    pose_from_cluster_onfly_matching envOGood filesRagged qImg [rRef] [] 48 1 =
      .ok (none, [(qImg, rRef)], 1, []) ∧
    pose_from_cluster_onfly_matching envOGood filesId qImg [rRef] [] 48 1 ≠
      pose_from_cluster_onfly_matching envOGood filesRagged qImg [rRef] [] 48 1 := by
  refine ⟨by decide, by decide, by decide⟩

end HlocInloc
